import Mathlib

/-!
Verification of the termidar frame pipeline and playback engine.

This file gives a shallow embedding, in Lean 4, of the core algorithmic code
of the termidar repository:

* the image-to-grid converter `imageToRadarData`
  (src/internal/radar/client.go, same body as src/main.go),
* the frame source `fetchRealRadarData` / `fetchFromRainViewer` and the
  synthetic generator `generateRadarFrames` (src/internal/radar/client.go),
* the load pipeline `LoadData` (src/internal/radar/client.go),
* the geographic overlay rasterizer `DrawGeographicBoundaries`
  (internal/geography, second half of src/internal/radar/client.go blob),
* the bubbletea model and its `Update` state machine (package ui,
  src/unnamed/part_003),
* the alert-selection loop of `GetAlertDisplay`
  (src/unnamed/part_002, same body as getAlertDisplay in src/main.go).

Modelling conventions:
* Go machine integers are modelled as `Int` (or `Nat` where the Go value is
  a non-negative count or an unsigned byte), with wrapping/truncation made
  explicit where it matters (`% 256` for `uint8` conversions, `Int.tmod`
  for Go's truncating `%`).
* Go `float64` geometry is modelled over `ℚ`; `math.Cos` is an explicit
  function parameter; `math.Sqrt` applied to small integers is modelled by
  `Nat.sqrt` together with the exact square comparison (`dist < 5` becomes
  `dx*dx + dy*dy < 25`), which agrees with the correctly-rounded `float64`
  computation on the tiny integer inputs the code uses.
* Network effects are modelled as explicit oracle parameters: a fetched
  manifest is a value of type `Option (List PastEntry)` (`none` = transport
  or decode error), a per-tile fetch is a function returning
  `Option GoImage`, and so on.  Wall-clock reads (`time.Now()`) are explicit
  parameters.
* `time.Time` values are modelled as integers; RainViewer timestamps are in
  unix seconds, Iowa-State timestamps in minutes since epoch. Ordering
  statements only ever compare timestamps within one provider path.
-/

namespace Termidar

/-! ## Configuration constants (internal/config/config.go) -/

def RadarWidth : Nat := 60
def RadarHeight : Nat := 30
def MaxFrames : Nat := 20

/-! ## Images and the image-to-grid converter (internal/radar/client.go, imageToRadarData) -/

/-- A 16-bit RGBA sample, as returned by Go's `color.Color.RGBA()`:
each channel is a `uint32` whose value lies in `[0, 65535]`. -/
structure RGBA16 where
  r : Nat
  g : Nat
  b : Nat
  a : Nat
deriving Repr, DecidableEq

/-- A decoded raster image: its bounds size and a per-pixel RGBA query
(the Go code indexes `img.At` from the origin). -/
structure GoImage where
  width : Nat
  height : Nat
  At : Nat → Nat → RGBA16

/-- Go's `uint8(v >> 8)` applied to a `uint32` color component. -/
def u8hi (v : Nat) : Nat := (v >>> 8) % 256

/-- The RGB classification of one opaque pixel
(the `if r8 > 200 && g8 < 100 ...` chain of `imageToRadarData`);
first match wins, no match yields 0.  The inner divisions are the Go
`uint8` divisions `(r8-200)/28`, `(r8-200)/50`, `(g8-150)/50`, which given
the guards are plain truncating divisions of non-negative bytes. -/
def classifyPixel (r8 g8 b8 : Nat) : Int :=
  if 200 < r8 ∧ g8 < 100 ∧ b8 < 100 then 8 + (((r8 - 200) / 28 : Nat) : Int)
  else if 200 < r8 ∧ 150 < g8 ∧ b8 < 100 then 5 + (((r8 - 200) / 50 : Nat) : Int)
  else if 150 < g8 ∧ r8 < 150 ∧ b8 < 100 then 1 + (((g8 - 150) / 50 : Nat) : Int)
  else if 150 < b8 ∧ r8 < 100 ∧ g8 < 150 then 1
  else if 100 < r8 ∧ 100 < g8 ∧ b8 < 50 then 4
  else 0

/-- The two trailing clamps of `imageToRadarData`:
`if intensity > 10 { intensity = 10 }; if intensity < 0 { intensity = 0 }`. -/
def clampIntensity (i : Int) : Int :=
  let i := if i > 10 then 10 else i
  if i < 0 then 0 else i

/-- The value stored into `data[y][x]` for target cell `(x, y)`:
nearest-neighbour sample at `(x*width/RadarWidth, y*height/RadarHeight)`;
a 16-bit alpha below 128 hits the `continue`, leaving the cell at its
initial 0; otherwise the classified, clamped intensity is stored. -/
def samplePixel (img : GoImage) (x y : Nat) : Int :=
  let imgX := x * img.width / RadarWidth
  let imgY := y * img.height / RadarHeight
  let c := img.At imgX imgY
  if c.a < 128 then 0
  else clampIntensity (classifyPixel (u8hi c.r) (u8hi c.g) (u8hi c.b))

/-- The source color sampled for target cell `(x, y)`:
`img.At(x*width/RadarWidth, y*height/RadarHeight)`. -/
def sampledColor (img : GoImage) (x y : Nat) : RGBA16 :=
  img.At (x * img.width / RadarWidth) (y * img.height / RadarHeight)

/-- `imageToRadarData`: the full `RadarHeight × RadarWidth` grid
(row-major, `data[y][x]`).  The `foundPrecipitation` flag only feeds a log
line and is omitted. -/
def imageToRadarData (img : GoImage) : List (List Int) :=
  (List.range RadarHeight).map fun y =>
    (List.range RadarWidth).map fun x => samplePixel img x y

/-- Read cell `(y, x)` of a grid, defaulting to 0 out of bounds. -/
def gridCell (g : List (List Int)) (y x : Nat) : Int :=
  (g.getD y []).getD x 0

/-! ## Weather alerts (internal/weather, src/unnamed/part_002) -/

/-- `weather.Alert`; `Expires` is an integer timestamp. -/
structure Alert where
  Event : String
  Severity : String
  Urgency : String
  Headline : String
  Description : String
  Expires : Int
deriving Repr, DecidableEq

/-- The zero value of `weather.Alert` (Go `var mostSevere Alert`). -/
def emptyAlert : Alert := ⟨"", "", "", "", "", 0⟩

/-- The `severityRank` map of `GetAlertDisplay`; a Go map lookup on a
missing key yields the zero value 0, which coincides with the explicit
entry for `"Unknown"`. -/
def severityRank (s : String) : Int :=
  if s = "Extreme" then 4
  else if s = "Severe" then 3
  else if s = "Moderate" then 2
  else if s = "Minor" then 1
  else 0

/-- The selection loop of `GetAlertDisplay`
(`maxSeverity := -1; for _, alert := range alerts { ... if rank > maxSeverity }`):
the alert whose styled text the display layer renders.  The accumulator pairs
the running `maxSeverity` with the running `mostSevere`. -/
def mostSevereAlert (alerts : List Alert) : Alert :=
  (alerts.foldl
    (fun (acc : Int × Alert) alert =>
      if severityRank alert.Severity > acc.1 then (severityRank alert.Severity, alert) else acc)
    (-1, emptyAlert)).2

/-! ## Frames and the frame source (internal/radar/client.go) -/

/-- `radar.Frame`.  `Timestamp` is an integer time value: unix seconds for
RainViewer frames, minutes since epoch for Iowa-State frames (ordering is
only ever compared within one provider's list). -/
structure Frame where
  Data : List (List Int)
  Timestamp : Int
  Product : String
deriving Repr, DecidableEq

/-- One entry of the decoded RainViewer manifest (`radar.past` array). -/
structure PastEntry where
  Time : Int
  Path : String
deriving Repr, DecidableEq

/-- The tile loop of `fetchFromRainViewer`: walk the manifest's `past`
entries in order; a failed tile fetch or PNG decode (`tileFetch e = none`)
is skipped; a success is converted with `imageToRadarData` and appended,
tagged `"Composite"` with `time.Unix(past.Time, 0)`; after each iteration
the loop breaks once `maxFrames` frames are collected.
(`imageToRadarData` never returns nil, so the `data != nil` guard always
holds.) -/
def fetchFromRainViewer (tileFetch : PastEntry → Option GoImage) :
    List PastEntry → List Frame → List Frame
  | [], frames => frames
  | e :: rest, frames =>
    let frames :=
      match tileFetch e with
      | some img => frames ++ [⟨imageToRadarData img, e.Time, "Composite"⟩]
      | none => frames
    if MaxFrames ≤ frames.length then frames
    else fetchFromRainViewer tileFetch rest frames

/-- Round a time (in minutes since epoch) the way the Iowa-State loop does:
take `Minute()` (minute of the hour), round it down to a multiple of 5, and
rebuild the time with seconds zeroed.  For a time `t` in minutes that is
`t - (t % 60) % 5`. -/
def alignTime (t : Int) : Int := t - t % 60 % 5

/-- The Iowa-State fallback loop of `fetchRealRadarData`
(`for i := 0; i < 24; i++`): frame `i` is requested at
`alignTime (base - 5*i)` (5-minute steps backwards from `time.Now()`,
aligned), so frames are collected newest-first; any transport, status or
decode failure (`iowaFetch t = none`) is skipped; the loop breaks once
`maxFrames` frames are collected. -/
def iowaLoop (base : Int) (iowaFetch : Int → Option GoImage) :
    List Nat → List Frame → List Frame
  | [], frames => frames
  | i :: rest, frames =>
    let frameTime := alignTime (base - 5 * (i : Int))
    let frames :=
      match iowaFetch frameTime with
      | some img => frames ++ [⟨imageToRadarData img, frameTime, "N0R"⟩]
      | none => frames
    if MaxFrames ≤ frames.length then frames
    else iowaLoop base iowaFetch rest frames

/-- The Iowa-State half of `fetchRealRadarData`: run the 24-iteration loop,
fail with `no radar data available` (`none`) on an empty yield, otherwise
reverse in place so the oldest frame is first and report real data. -/
def iowaFallback (base : Int) (iowaFetch : Int → Option GoImage) :
    Option (List Frame × Bool) :=
  let frames := iowaLoop base iowaFetch (List.range 24) []
  if frames.length = 0 then none
  else some (frames.reverse, true)

/-- `fetchRealRadarData`: first try RainViewer (`manifest = none` models a
failed manifest request or JSON decode); if that attempt errors or yields
zero frames, fall back to the Iowa-State loop.  `none` models the returned
error (both strategies yielded zero frames). -/
def fetchRealRadarData (manifest : Option (List PastEntry))
    (tileFetch : PastEntry → Option GoImage)
    (base : Int) (iowaFetch : Int → Option GoImage) : Option (List Frame × Bool) :=
  match manifest with
  | some entries =>
    let frames := fetchFromRainViewer tileFetch entries []
    if 0 < frames.length then some (frames, true)
    else iowaFallback base iowaFetch
  | none => iowaFallback base iowaFetch

/-! ## The synthetic generator (internal/radar/client.go, generateRadarFrames) -/

/-- Write `v` at row `y`, column `x` of a grid (in-bounds by the caller's
guard; `List.set` is a no-op out of bounds). -/
def updateGrid (g : List (List Int)) (y x : Nat) (v : Int) : List (List Int) :=
  g.set y ((g.getD y []).set x v)

/-- Truncated integer square root (`int(math.Sqrt n)` for the generator's
small radicands, all at most 50): the greatest `k` with `k*k ≤ n`, written
as a fold so that it evaluates by kernel reduction. -/
def intSqrt (n : Nat) : Nat :=
  (List.range (n + 1)).foldl (fun acc k => if k * k ≤ n then k else acc) 0

/-- The grid of synthetic frame `i`: `2 + i%3` pseudo-storm cells, each a
radial intensity falloff stamped over an all-zero grid.  `math.Sqrt` on the
integer `dx*dx + dy*dy ≤ 50` is modelled exactly: `dist < 5` is
`dx*dx + dy*dy < 25` and `int(dist)` is `intSqrt (dx*dx + dy*dy)`. -/
def genFrameData (i : Nat) : List (List Int) :=
  let data0 := List.replicate RadarHeight (List.replicate RadarWidth (0 : Int))
  let numCells := 2 + i % 3
  (List.range numCells).foldl
    (fun data c =>
      let centerX : Int := 10 + ((i * 3 + c * 15) % RadarWidth : Nat)
      let centerY : Int := 5 + ((i * 2 + c * 10) % RadarHeight : Nat)
      let intensity : Int := 5 + 2 * (c : Int)
      (List.range 11).foldl
        (fun data dyi =>
          (List.range 11).foldl
            (fun data dxi =>
              let dy : Int := (dyi : Int) - 5
              let dx : Int := (dxi : Int) - 5
              let x := centerX + dx
              let y := centerY + dy
              if 0 ≤ x ∧ x < (RadarWidth : Int) ∧ 0 ≤ y ∧ y < (RadarHeight : Int) then
                let distSq := (dx * dx + dy * dy).toNat
                if distSq < 25 then
                  let v := intensity - (intSqrt distSq : Int)
                  let v := if v < 0 then 0 else v
                  let v := if v > 10 then 10 else v
                  updateGrid data y.toNat x.toNat v
                else data
              else data)
            data)
        data)
    data0

/-- `generateRadarFrames`: `count` synthetic frames; frame `i` carries
timestamp `now + 10*i` minutes and the zero-value product tag (the Go
literal omits `Product`).  The `station` argument is accepted and unused,
as in the source. -/
def generateRadarFrames (_station : String) (count : Nat) (now : Int) : List Frame :=
  (List.range count).map fun i => ⟨genFrameData i, now + 10 * (i : Int), ""⟩

/-! ## The load pipeline (internal/radar/client.go, LoadData) -/

/-- `radar.Data`. -/
structure RadarData where
  Frames : List Frame
  Location : String
  Station : String
  LastUpdated : Int
  IsRealData : Bool
  Temperature : Int
  Conditions : String
  Alerts : List Alert
deriving Repr, DecidableEq

/-- The zero value of `radar.Data`. -/
def emptyRadarData : RadarData := ⟨[], "", "", 0, false, 0, "", []⟩

/-- The external collaborators of one run of `LoadData`, plus the wall
clock: geocoding and station lookup may fail (`none` models the error
return), current conditions and alerts are best-effort values, and the
radar providers are the oracles of `fetchRealRadarData`. -/
structure Oracles where
  geocode : Option (ℚ × ℚ × String × String)
  nearestStation : Option String
  currentConditions : Int × String
  alerts : List Alert
  manifest : Option (List PastEntry)
  tileFetch : PastEntry → Option GoImage
  baseTime : Int
  iowaFetch : Int → Option GoImage
  now : Int

/-- The message a finished `LoadData` command posts back to the event loop. -/
inductive LoadResult where
  | loaded (d : RadarData)
  | loadError (msg : String)

/-- `LoadData` (the body of the returned `tea.Cmd`): geocode, find the
station, fetch conditions and alerts, fetch real radar data, and on a
fetch error substitute `generateRadarFrames(station, maxFrames)` with
`isRealData = false`. -/
def LoadData (o : Oracles) : LoadResult :=
  match o.geocode with
  | none => .loadError "failed to geocode ZIP"
  | some (_lat, _lon, city, state) =>
    match o.nearestStation with
    | none => .loadError "failed to get radar station"
    | some station =>
      let temperature := o.currentConditions.1
      let conditions := o.currentConditions.2
      let alerts := o.alerts
      let (frames, isRealData) :=
        match fetchRealRadarData o.manifest o.tileFetch o.baseTime o.iowaFetch with
        | some r => r
        | none => (generateRadarFrames station MaxFrames o.now, false)
      .loaded
        { Frames := frames
          Location := city ++ ", " ++ state
          Station := station
          LastUpdated := o.now
          IsRealData := isRealData
          Temperature := temperature
          Conditions := conditions
          Alerts := alerts }

/-! ## The playback/refresh scheduler (package ui, src/unnamed/part_003) -/

/-- The `ui.State` enumeration. -/
inductive UiState where
  | input
  | loading
  | displaying
  | error
deriving Repr, DecidableEq

/-- `ui.Model`.  The spinner and progress widgets are opaque external
collaborators and are not modelled; `zipInput` is the text input's current
value; `frameRate` and `lastRefresh` are in milliseconds and an integer
wall-clock value respectively. -/
structure Model where
  state : UiState
  zipInput : String
  radar : RadarData
  currentFrame : Int
  width : Int
  height : Int
  errorMsg : String
  showHelp : Bool
  isPaused : Bool
  frameRate : Int
  lastRefresh : Int
  autoRefresh : Bool
  zipCode : String
  animationActive : Bool
  isBackgroundRefresh : Bool
deriving Repr, DecidableEq

/-- The messages consumed by `Model.Update`.  `key s` is a `tea.KeyMsg`
with `msg.String() = s`; `radarError`/`uiError` are the two identical error
message types; `progressUpd` carries the decorative percentage. -/
inductive Msg where
  | key (s : String)
  | windowSize (w h : Int)
  | spinnerTick
  | progressUpd (p : ℚ)
  | loaded (d : RadarData)
  | refreshTick
  | frameTick
  | radarError (e : String)
  | uiError (e : String)
deriving Repr, DecidableEq

/-- The commands `Model.Update` batches (each a `tea.Cmd` in the source);
modelled as tags so that re-arming behaviour is visible in the result. -/
inductive Cmd where
  | quit
  | blink
  | spinnerTickCmd
  | loadData (zip : String)
  | trackProgress
  | animateFrame
  | scheduleRefresh
  | setPercent (p : ℚ)
  | spinnerUpdate
deriving Repr, DecidableEq

/-- `Model.ResetToInput`: back to the input screen, session cleared. -/
def resetToInput (m : Model) : Model :=
  { m with state := .input, radar := emptyRadarData, currentFrame := 0,
           errorMsg := "", zipInput := "", animationActive := false }

/-- `ui.InitialModel` (zero values for the fields the literal omits;
`frameRate` is 300ms). -/
def initialModel : Model :=
  { state := .input, zipInput := "", radar := emptyRadarData, currentFrame := 0,
    width := 80, height := 40, errorMsg := "", showHelp := false, isPaused := false,
    frameRate := 300, lastRefresh := 0, autoRefresh := true, zipCode := "",
    animationActive := false, isBackgroundRefresh := false }

/-- `Model.Update` of package ui (src/unnamed/part_003), one message at a
time; `now` is the wall clock at handling time (`time.Now()`).  Go's `%`
on ints is `Int.tmod`.  The trailing `if m.state == StateInput` block only
forwards the message to the external text-input widget; its effect on
`zipInput` is outside the modelled core and is the identity here. -/
def update (m : Model) (msg : Msg) (now : Int) : Model × List Cmd :=
  match msg with
  | .key s =>
    if s = "ctrl+c" ∨ s = "q" then (m, [.quit])
    else if s = "esc" then
      if m.state = .displaying ∨ m.state = .error then
        (resetToInput { m with animationActive := false }, [.blink])
      else (m, [])
    else if s = "enter" then
      if m.state = .input ∧ m.zipInput.length = 5 then
        ({ m with state := .loading, zipCode := m.zipInput },
         [.spinnerTickCmd, .loadData m.zipInput, .trackProgress])
      else (m, [])
    else if s = "?" ∨ s = "h" then ({ m with showHelp := !m.showHelp }, [])
    else if s = " " then
      if m.state = .displaying then
        let m := { m with isPaused := !m.isPaused }
        if ¬m.isPaused ∧ ¬m.animationActive then
          ({ m with animationActive := true }, [.animateFrame])
        else (m, [])
      else (m, [])
    else if s = "r" then
      if m.state = .displaying ∧ m.zipCode ≠ "" then
        ({ m with animationActive := false, state := .loading },
         [.spinnerTickCmd, .loadData m.zipCode, .trackProgress])
      else (m, [])
    else if s = "left" ∨ s = "a" then
      if m.state = .displaying ∧ 0 < m.radar.Frames.length then
        let n : Int := m.radar.Frames.length
        ({ m with currentFrame := (m.currentFrame - 1 + n).tmod n }, [])
      else (m, [])
    else if s = "right" ∨ s = "d" then
      if m.state = .displaying ∧ 0 < m.radar.Frames.length then
        let n : Int := m.radar.Frames.length
        ({ m with currentFrame := (m.currentFrame + 1).tmod n }, [])
      else (m, [])
    else if s = "+" ∨ s = "=" then
      if 100 < m.frameRate then ({ m with frameRate := m.frameRate - 100 }, [])
      else (m, [])
    else if s = "-" ∨ s = "_" then
      if m.frameRate < 2000 then ({ m with frameRate := m.frameRate + 100 }, [])
      else (m, [])
    else (m, [])
  | .windowSize w h => ({ m with width := w, height := h }, [])
  | .spinnerTick => (m, if m.state = .loading then [.spinnerUpdate] else [])
  | .progressUpd p => (m, if m.state = .loading then [.setPercent p] else [])
  | .loaded d =>
    let m1 := { m with radar := d }
    let step :=
      if m1.state = .displaying ∧ m1.isBackgroundRefresh then
        -- background-refresh branch: keep frame index and pause state
        ({ m1 with isBackgroundRefresh := false, lastRefresh := now }, ([] : List Cmd))
      else
        -- normal load behaviour
        let m2 := { m1 with state := .displaying, currentFrame := 0, isPaused := false,
                            lastRefresh := now }
        if ¬m2.animationActive then
          ({ m2 with animationActive := true }, [Cmd.animateFrame])
        else (m2, [])
    let m3 := step.1
    if m3.autoRefresh ∧ ¬m3.isBackgroundRefresh then (m3, step.2 ++ [.scheduleRefresh])
    else (m3, step.2)
  | .refreshTick =>
    if m.state = .displaying ∧ m.autoRefresh ∧ m.zipCode ≠ "" then
      (m, [.loadData m.zipCode, .scheduleRefresh])
    else (m, [])
  | .frameTick =>
    if m.state = .displaying ∧ m.animationActive ∧ ¬m.isPaused ∧ 0 < m.radar.Frames.length
    then
      let n : Int := m.radar.Frames.length
      ({ m with currentFrame := (m.currentFrame + 1).tmod n }, [.animateFrame])
    else ({ m with animationActive := false }, [])
  | .radarError e => ({ m with state := .error, errorMsg := e, animationActive := false }, [])
  | .uiError e => ({ m with state := .error, errorMsg := e, animationActive := false }, [])

/-! ## The geographic overlay rasterizer (internal/geography, DrawGeographicBoundaries)

The display is a grid of styled glyph strings; `lipgloss` style rendering is
modelled as prefixing a style tag (it deterministically wraps the glyph in
ANSI escape codes).  `float64` geometry is over `ℚ`, with `math.Cos` an
explicit parameter and Go's `int(...)` conversion as truncation toward zero. -/

/-- A terminal display grid (row-major, cells are rendered glyph strings). -/
abbrev DisplayGrid := List (List String)

/-- `style.Render(ch)`: deterministic styling, modelled as tagging. -/
def styleRender (style ch : String) : String := style ++ ch

/-- `lipgloss.NewStyle().Foreground(lipgloss.Color("239"))` (also used for labels). -/
def boundaryStyleTag : String := "fg239;"

/-- `lipgloss.NewStyle().Foreground(lipgloss.Color("33"))`. -/
def waterStyleTag : String := "fg33;"

/-- `lipgloss.NewStyle().Foreground(lipgloss.Color("94"))`. -/
def mountainStyleTag : String := "fg94;"

/-- `lipgloss.NewStyle().Foreground(lipgloss.Color("240"))`. -/
def borderStyleTag : String := "fg240;"

/-- The bold yellow (`Color("226")`) style of the center marker. -/
def starStyleTag : String := "fg226bold;"

/-- Go's `int(q)` conversion of a `float64`: truncation toward zero. -/
def goInt (q : ℚ) : Int := q.num.tdiv q.den

/-- The `inBounds` helper: `y >= 0 && y < len(display) && x >= 0 && x < len(display[0])`. -/
def inBounds (d : DisplayGrid) (x y : Int) : Bool :=
  decide (0 ≤ y ∧ y < (d.length : Int) ∧ 0 ≤ x ∧ x < ((d.headD []).length : Int))

/-- Read `display[y][x]` (callers guard with `inBounds`). -/
def cellAt (d : DisplayGrid) (x y : Int) : String :=
  (d.getD y.toNat []).getD x.toNat " "

/-- Write `display[y][x] = v` (callers guard with `inBounds`). -/
def setCell (d : DisplayGrid) (x y : Int) (v : String) : DisplayGrid :=
  d.set y.toNat ((d.getD y.toNat []).set x.toNat v)

/-- The `safeDrawPoint` helper. -/
def safeDrawPoint (d : DisplayGrid) (x y : Int) (ch style : String) : DisplayGrid :=
  if inBounds d x y then setCell d x y (styleRender style ch) else d

/-- One vertical run of `drawLine` (`y1 ≤ y2` ensured by the caller's swap). -/
def vertSeg (d : DisplayGrid) (x y1 y2 : Int) (ch style : String)
    (skipExisting : Bool) : DisplayGrid :=
  (List.range ((y2 - y1).toNat + 1)).foldl
    (fun d i =>
      let y := y1 + (i : Int)
      if skipExisting && inBounds d x y && (cellAt d x y != " ") then d
      else safeDrawPoint d x y ch style)
    d

/-- One horizontal run of `drawLine` (`x1 ≤ x2` ensured by the caller's swap). -/
def horizSeg (d : DisplayGrid) (x1 x2 y : Int) (ch style : String)
    (skipExisting : Bool) : DisplayGrid :=
  (List.range ((x2 - x1).toNat + 1)).foldl
    (fun d i =>
      let x := x1 + (i : Int)
      if skipExisting && inBounds d x y && (cellAt d x y != " ") then d
      else safeDrawPoint d x y ch style)
    d

/-- The diagonal (Bresenham) loop of `drawLine`.  The Go `for` loop draws,
tests for the endpoint, then steps `x`/`y` by the error rule; it reaches
the clipped endpoint within `dx + dy` iterations, so running it on fuel
`dx + dy + 1` reproduces it exactly. -/
def bresenham (x y x2 y2 dx dy sx sy err : Int) (ch style : String)
    (skipExisting : Bool) (d : DisplayGrid) : Nat → DisplayGrid
  | 0 => d
  | fuel + 1 =>
    let d :=
      if skipExisting && inBounds d x y && (cellAt d x y != " ") then d
      else safeDrawPoint d x y ch style
    if x = x2 ∧ y = y2 then d
    else
      let e2 := 2 * err
      let err1 := if e2 > -dy then err - dy else err
      let x1 := if e2 > -dy then x + sx else x
      let err2 := if e2 < dx then err1 + dx else err1
      let y1 := if e2 < dx then y + sy else y
      bresenham x1 y1 x2 y2 dx dy sx sy err2 ch style skipExisting d fuel

/-- The `drawLine` closure: reject fully-offscreen segments, clip both
endpoints into the grid rectangle, then draw a vertical, horizontal or
Bresenham-diagonal run. -/
def drawLine (d : DisplayGrid) (x1 y1 x2 y2 : Int) (ch style : String)
    (skipExisting : Bool) : DisplayGrid :=
  if (x1 < 0 ∧ x2 < 0) ∨ ((RadarWidth : Int) ≤ x1 ∧ (RadarWidth : Int) ≤ x2) ∨
      (y1 < 0 ∧ y2 < 0) ∨ ((RadarHeight : Int) ≤ y1 ∧ (RadarHeight : Int) ≤ y2) then d
  else
    let x1 := max 0 (min ((RadarWidth : Int) - 1) x1)
    let x2 := max 0 (min ((RadarWidth : Int) - 1) x2)
    let y1 := max 0 (min ((RadarHeight : Int) - 1) y1)
    let y2 := max 0 (min ((RadarHeight : Int) - 1) y2)
    if x1 = x2 then
      if y1 > y2 then vertSeg d x1 y2 y1 ch style skipExisting
      else vertSeg d x1 y1 y2 ch style skipExisting
    else if y1 = y2 then
      if x1 > x2 then horizSeg d x2 x1 y1 ch style skipExisting
      else horizSeg d x1 x2 y1 ch style skipExisting
    else
      let dx := |x2 - x1|
      let dy := |y2 - y1|
      let sx : Int := if x1 > x2 then -1 else 1
      let sy : Int := if y1 > y2 then -1 else 1
      bresenham x1 y1 x2 y2 dx dy sx sy (dx - dy) ch style skipExisting d
        (dx + dy + 1).toNat

/-- `milesPerCharX = 250.0 / float64(config.RadarWidth)`. -/
def milesPerCharX : ℚ := 250 / (RadarWidth : ℚ)

/-- `milesPerCharY = 150.0 / float64(config.RadarHeight)`. -/
def milesPerCharY : ℚ := 150 / (RadarHeight : ℚ)

/-- The `latLonToDisplay` closure: local equirectangular projection around
the geocoded center.  `cosDeg lat` models `math.Cos(lat * math.Pi / 180)`. -/
def latLonToDisplay (cosDeg : ℚ → ℚ) (lat lon : ℚ) (centerX centerY : Int)
    (targetLat targetLon : ℚ) : Int × Int :=
  let milesPerDegreeLat : ℚ := 69
  let milesPerDegreeLon : ℚ := 69 * cosDeg lat
  let deltaLat := targetLat - lat
  let deltaLon := targetLon - lon
  let milesNorth := deltaLat * milesPerDegreeLat
  let milesEast := deltaLon * milesPerDegreeLon
  (centerX + goInt (milesEast / milesPerCharX), centerY - goInt (milesNorth / milesPerCharY))

set_option maxHeartbeats 2000000 in
/-- The state-border segment table of `drawStateBorders` (each entry two lat/lon endpoints). -/
def borders : List (ℚ × ℚ × ℚ × ℚ) := [
  (49.0, -117.03, 49.0, -123.0), (49.0, -123.0, 48.5, -124.7), (48.5, -124.7, 46.0, -124.0),
  (46.0, -124.0, 46.0, -117.03), (46.0, -117.03, 49.0, -117.03), (46.0, -117.03, 46.0, -124.0),
  (46.0, -124.0, 42.0, -124.4), (42.0, -124.4, 42.0, -117.02), (42.0, -117.02, 45.5, -117.02),
  (45.5, -117.02, 46.0, -117.03), (42.0, -120.0, 42.0, -124.4), (42.0, -120.0, 39.0, -120.0),
  (39.0, -120.0, 35.0, -119.5), (35.0, -119.5, 35.0, -114.6), (35.0, -114.6, 32.5, -114.5),
  (32.5, -114.5, 32.5, -117.1), (32.5, -117.1, 42.0, -124.4), (49.0, -117.03, 49.0, -116.05),
  (49.0, -116.05, 44.5, -111.05), (44.5, -111.05, 42.0, -111.05), (42.0, -111.05, 42.0, -114.0),
  (42.0, -114.0, 42.0, -117.02), (42.0, -117.02, 49.0, -117.03), (42.0, -120.0, 42.0, -114.0),
  (42.0, -114.0, 37.0, -114.0), (37.0, -114.0, 35.0, -114.6), (35.0, -114.6, 35.0, -120.0),
  (35.0, -120.0, 39.0, -120.0), (39.0, -120.0, 42.0, -120.0), (42.0, -114.0, 42.0, -111.05),
  (42.0, -111.05, 41.0, -111.05), (41.0, -111.05, 41.0, -109.05), (41.0, -109.05, 37.0, -109.05),
  (37.0, -109.05, 37.0, -114.0), (37.0, -114.0, 42.0, -114.0), (37.0, -114.0, 37.0, -109.05),
  (37.0, -109.05, 31.33, -109.05), (31.33, -109.05, 31.33, -111.07), (31.33, -111.07, 31.33, -114.81),
  (31.33, -114.81, 32.5, -114.5), (32.5, -114.5, 35.0, -114.6), (35.0, -114.6, 37.0, -114.0),
  (49.0, -116.05, 49.0, -104.03), (49.0, -104.03, 45.0, -104.03), (45.0, -104.03, 45.0, -111.05),
  (45.0, -111.05, 48.5, -116.05), (48.5, -116.05, 49.0, -116.05), (45.0, -111.05, 45.0, -104.05),
  (45.0, -104.05, 41.0, -104.05), (41.0, -104.05, 41.0, -111.05), (41.0, -111.05, 45.0, -111.05),
  (41.0, -109.05, 41.0, -102.05), (41.0, -102.05, 37.0, -102.05), (37.0, -102.05, 37.0, -109.05),
  (37.0, -109.05, 41.0, -109.05), (37.0, -109.05, 37.0, -103.0), (37.0, -103.0, 32.0, -103.0),
  (32.0, -103.0, 32.0, -106.5), (32.0, -106.5, 31.78, -106.5), (31.78, -106.5, 31.78, -108.2),
  (31.78, -108.2, 31.33, -109.05), (31.33, -109.05, 37.0, -109.05), (49.0, -104.03, 49.0, -97.23),
  (49.0, -97.23, 45.94, -96.56), (45.94, -96.56, 45.94, -104.03), (45.94, -104.03, 49.0, -104.03),
  (45.94, -104.03, 45.94, -96.44), (45.94, -96.44, 43.5, -96.44), (43.5, -96.44, 43.0, -96.44),
  (43.0, -96.44, 43.0, -104.05), (43.0, -104.05, 45.94, -104.03), (43.0, -104.05, 43.0, -96.44),
  (43.0, -96.44, 40.0, -95.31), (40.0, -95.31, 40.0, -102.05), (40.0, -102.05, 41.0, -102.05),
  (41.0, -102.05, 41.0, -104.05), (41.0, -104.05, 43.0, -104.05), (40.0, -102.05, 40.0, -94.62),
  (40.0, -94.62, 39.0, -94.62), (39.0, -94.62, 37.0, -94.62), (37.0, -94.62, 37.0, -102.05),
  (37.0, -102.05, 40.0, -102.05), (49.0, -97.23, 49.0, -95.15), (49.0, -95.15, 49.0, -89.53),
  (48.0, -89.53, 47.5, -92.3), (47.5, -92.3, 46.5, -92.3), (46.5, -92.3, 45.5, -92.3),
  (45.5, -92.3, 43.5, -91.22), (43.5, -91.22, 43.5, -96.44), (43.5, -96.44, 45.94, -96.56),
  (45.94, -96.56, 49.0, -97.23), (43.5, -96.44, 43.5, -91.22), (43.5, -91.22, 42.5, -90.64),
  (42.5, -90.64, 40.38, -91.41), (40.38, -91.41, 40.58, -95.77), (40.58, -95.77, 43.0, -96.44),
  (43.0, -96.44, 43.5, -96.44), (40.58, -95.77, 40.38, -91.41), (40.38, -91.41, 36.5, -89.5),
  (36.5, -89.5, 36.0, -89.5), (36.0, -89.5, 36.5, -90.37), (36.5, -90.37, 36.5, -94.62),
  (36.5, -94.62, 37.0, -94.62), (37.0, -94.62, 39.0, -94.62), (39.0, -94.62, 40.58, -95.77),
  (46.5, -92.3, 45.5, -92.3), (45.5, -92.3, 43.5, -91.22), (43.5, -91.22, 42.5, -90.64),
  (42.5, -90.64, 42.5, -87.02), (42.5, -87.02, 45.0, -87.0), (45.0, -87.0, 45.5, -88.0),
  (45.5, -88.0, 46.5, -90.0), (46.5, -90.0, 46.5, -92.3), (42.5, -90.64, 42.5, -87.02),
  (42.5, -87.02, 41.76, -87.53), (41.76, -87.53, 39.0, -87.5), (39.0, -87.5, 37.0, -88.1),
  (37.0, -88.1, 37.0, -89.15), (37.0, -89.15, 36.5, -89.5), (36.5, -89.5, 40.38, -91.41),
  (40.38, -91.41, 42.5, -90.64), (45.0, -87.0, 45.5, -88.0), (45.5, -88.0, 46.5, -90.0),
  (46.5, -90.0, 47.5, -89.0), (42.0, -86.5, 45.0, -87.0), (41.76, -84.8, 42.0, -83.0),
  (42.0, -83.0, 42.5, -82.4), (41.76, -87.53, 41.76, -84.8), (41.76, -84.8, 39.0, -84.8),
  (39.0, -84.8, 38.0, -86.0), (38.0, -86.0, 37.0, -88.1), (37.0, -88.1, 39.0, -87.5),
  (39.0, -87.5, 41.76, -87.53), (41.76, -84.8, 41.97, -80.52), (41.97, -80.52, 40.64, -80.52),
  (40.64, -80.52, 39.0, -81.0), (39.0, -81.0, 38.5, -82.0), (38.5, -82.0, 38.5, -84.8),
  (38.5, -84.8, 39.0, -84.8), (39.0, -84.8, 41.76, -84.8), (36.5, -103.0, 36.5, -100.0),
  (36.5, -100.0, 34.0, -100.0), (34.0, -100.0, 33.5, -94.04), (33.5, -94.04, 31.17, -94.04),
  (31.17, -94.04, 29.5, -93.84), (29.5, -93.84, 26.0, -97.14), (26.0, -97.14, 25.84, -97.14),
  (25.84, -97.14, 31.78, -106.5), (31.78, -106.5, 32.0, -106.5), (32.0, -106.5, 32.0, -103.0),
  (32.0, -103.0, 36.5, -103.0), (37.0, -103.0, 37.0, -94.62), (37.0, -94.62, 36.5, -94.62),
  (36.5, -94.62, 35.0, -94.43), (35.0, -94.43, 33.5, -94.04), (33.5, -94.04, 34.0, -100.0),
  (34.0, -100.0, 36.5, -100.0), (36.5, -100.0, 36.5, -103.0), (36.5, -103.0, 37.0, -103.0),
  (36.5, -94.62, 36.5, -90.37), (36.5, -90.37, 35.0, -90.0), (35.0, -90.0, 35.0, -91.0),
  (35.0, -91.0, 33.0, -91.2), (33.0, -91.2, 33.0, -94.04), (33.0, -94.04, 35.0, -94.43),
  (35.0, -94.43, 36.5, -94.62), (33.0, -94.04, 33.0, -91.2), (33.0, -91.2, 31.0, -91.5),
  (31.0, -91.5, 30.0, -89.5), (30.0, -89.5, 29.0, -89.0), (29.0, -89.0, 29.5, -93.84),
  (29.5, -93.84, 31.17, -94.04), (31.17, -94.04, 33.0, -94.04), (35.0, -91.0, 35.0, -88.2),
  (35.0, -88.2, 31.0, -88.47), (31.0, -88.47, 30.0, -89.5), (30.0, -89.5, 31.0, -91.5),
  (31.0, -91.5, 35.0, -91.0), (35.0, -88.2, 35.0, -85.0), (35.0, -85.0, 32.9, -85.0),
  (32.9, -85.0, 31.0, -85.0), (31.0, -85.0, 30.0, -87.5), (30.0, -87.5, 30.0, -88.47),
  (30.0, -88.47, 31.0, -88.47), (31.0, -88.47, 35.0, -88.2), (36.5, -90.37, 36.5, -81.65),
  (36.5, -81.65, 35.0, -84.32), (35.0, -84.32, 35.0, -85.0), (35.0, -85.0, 35.0, -88.2),
  (35.0, -88.2, 35.0, -90.0), (35.0, -90.0, 36.5, -90.37), (39.0, -84.8, 38.5, -84.8),
  (38.5, -84.8, 38.5, -82.0), (38.5, -82.0, 37.5, -82.5), (37.5, -82.5, 36.5, -83.68),
  (36.5, -83.68, 36.5, -89.5), (36.5, -89.5, 37.0, -89.15), (37.0, -89.15, 37.0, -88.1),
  (37.0, -88.1, 38.0, -86.0), (38.0, -86.0, 39.0, -84.8), (31.0, -87.5, 31.0, -85.0),
  (31.0, -85.0, 30.5, -84.86), (30.5, -84.86, 30.0, -82.0), (30.0, -82.0, 25.0, -80.0),
  (25.0, -80.0, 24.5, -81.8), (24.5, -81.8, 30.0, -87.5), (30.0, -87.5, 31.0, -87.5),
  (35.0, -85.0, 35.0, -83.5), (35.0, -83.5, 32.0, -81.0), (32.0, -81.0, 30.5, -81.5),
  (30.5, -81.5, 30.0, -82.0), (30.0, -82.0, 30.5, -84.86), (30.5, -84.86, 32.9, -85.0),
  (32.9, -85.0, 35.0, -85.0), (35.0, -83.5, 35.2, -80.5), (35.2, -80.5, 33.5, -79.0),
  (33.5, -79.0, 32.0, -81.0), (32.0, -81.0, 35.0, -83.5), (36.5, -83.68, 36.5, -75.5),
  (36.5, -75.5, 35.5, -75.5), (35.5, -75.5, 33.5, -79.0), (33.5, -79.0, 35.2, -80.5),
  (35.2, -80.5, 35.0, -84.32), (35.0, -84.32, 36.5, -83.68), (39.0, -77.52, 39.0, -75.5),
  (39.0, -75.5, 38.0, -75.5), (38.0, -75.5, 36.5, -75.5), (36.5, -75.5, 36.5, -83.68),
  (36.5, -83.68, 37.5, -82.5), (37.5, -82.5, 39.0, -80.52), (39.0, -80.52, 39.0, -77.52),
  (40.64, -80.52, 39.72, -79.48), (39.72, -79.48, 39.0, -77.52), (39.0, -77.52, 39.0, -80.52),
  (39.0, -80.52, 37.5, -82.5), (37.5, -82.5, 38.5, -82.0), (38.5, -82.0, 39.0, -81.0),
  (39.0, -81.0, 40.64, -80.52), (42.0, -80.52, 42.0, -79.76), (42.0, -79.76, 41.99, -75.35),
  (41.99, -75.35, 41.0, -75.1), (41.0, -75.1, 39.72, -75.79), (39.72, -75.79, 39.72, -79.48),
  (39.72, -79.48, 40.64, -80.52), (40.64, -80.52, 42.0, -80.52), (45.01, -74.75, 45.01, -71.5),
  (45.01, -71.5, 42.73, -71.5), (42.73, -71.5, 42.0, -73.35), (42.0, -73.35, 41.0, -73.9),
  (41.0, -73.9, 40.7, -74.0), (40.7, -74.0, 41.0, -75.1), (41.0, -75.1, 41.99, -75.35),
  (41.99, -75.35, 42.0, -79.76), (42.0, -79.76, 45.01, -74.75), (41.36, -74.7, 41.0, -73.9),
  (41.0, -73.9, 40.7, -74.0), (40.7, -74.0, 39.0, -74.5), (39.0, -74.5, 38.8, -75.2),
  (38.8, -75.2, 39.72, -75.79), (39.72, -75.79, 41.0, -75.1), (41.0, -75.1, 41.36, -74.7),
  (39.84, -75.79, 39.72, -75.79), (39.72, -75.79, 38.8, -75.2), (38.8, -75.2, 38.45, -75.05),
  (38.45, -75.05, 38.45, -75.79), (38.45, -75.79, 39.84, -75.79), (39.72, -79.48, 39.72, -75.79),
  (39.72, -75.79, 38.45, -75.79), (38.45, -75.79, 38.0, -76.0), (38.0, -76.0, 38.0, -77.0),
  (38.0, -77.0, 39.0, -77.52), (39.0, -77.52, 39.72, -79.48), (42.05, -73.48, 42.05, -71.8),
  (42.05, -71.8, 41.3, -71.85), (41.3, -71.85, 41.0, -72.0), (41.0, -72.0, 41.0, -73.9),
  (41.0, -73.9, 42.0, -73.35), (42.0, -73.35, 42.05, -73.48), (42.01, -71.38, 42.01, -71.12),
  (42.01, -71.12, 41.3, -71.12), (41.3, -71.12, 41.3, -71.85), (41.3, -71.85, 42.01, -71.8),
  (42.01, -71.8, 42.01, -71.38), (42.88, -73.26, 42.75, -71.0), (42.75, -71.0, 42.88, -70.5),
  (42.88, -70.5, 42.0, -70.0), (42.0, -70.0, 41.5, -71.12), (41.5, -71.12, 42.01, -71.38),
  (42.01, -71.38, 42.05, -71.8), (42.05, -71.8, 42.05, -73.48), (42.05, -73.48, 42.88, -73.26),
  (45.01, -71.5, 45.01, -73.35), (45.01, -73.35, 42.73, -73.26), (42.73, -73.26, 42.73, -72.46),
  (42.73, -72.46, 42.73, -71.5), (42.73, -71.5, 45.01, -71.5), (45.3, -71.08, 45.3, -71.0),
  (45.3, -71.0, 42.88, -70.5), (42.88, -70.5, 42.75, -71.0), (42.75, -71.0, 42.73, -72.46),
  (42.73, -72.46, 45.01, -71.5), (45.01, -71.5, 45.3, -71.08), (47.46, -69.23, 45.3, -71.08),
  (45.3, -71.08, 45.3, -71.0), (45.3, -71.0, 42.88, -70.5), (42.88, -70.5, 43.5, -70.0),
  (43.5, -70.0, 45.0, -67.0), (45.0, -67.0, 47.46, -69.23), (71.5, -156.5, 71.5, -141.0),
  (71.5, -141.0, 54.5, -130.0), (54.5, -130.0, 54.5, -173.0), (54.5, -173.0, 71.5, -156.5),
  (22.2, -159.8, 22.2, -159.3), (22.2, -159.3, 21.8, -159.3), (21.8, -159.3, 21.8, -159.8),
  (21.8, -159.8, 22.2, -159.8), (21.1, -156.3, 21.1, -155.9), (21.1, -155.9, 20.5, -155.9),
  (20.5, -155.9, 20.5, -156.7), (20.5, -156.7, 21.1, -156.3), (21.7, -158.3, 21.7, -157.6),
  (21.7, -157.6, 21.2, -157.6), (21.2, -157.6, 21.2, -158.3), (21.2, -158.3, 21.7, -158.3),
  (19.7, -156.1, 19.7, -154.8), (19.7, -154.8, 18.9, -154.8), (18.9, -154.8, 18.9, -156.1),
  (18.9, -156.1, 19.7, -156.1)
]

/-- The state-abbreviation label table. -/
def stateLabels : List (ℚ × ℚ × String) := [
  (44.5, -100.0, "SD"), (41.5, -99.0, "NE"), (42.0, -93.5, "IA"),
  (46.0, -94.5, "MN"), (43.0, -89.5, "WI"), (40.0, -89.0, "IL"),
  (38.5, -98.5, "KS"), (39.0, -105.5, "CO"), (44.0, -107.5, "WY"),
  (47.0, -110.0, "MT"), (46.5, -100.5, "ND"), (38.5, -92.5, "MO"),
  (35.0, -97.5, "OK"), (31.0, -99.0, "TX"), (40.5, -112.0, "UT"),
  (39.0, -119.5, "NV"), (37.5, -119.5, "CA"), (44.0, -120.5, "OR"),
  (47.5, -120.5, "WA"), (43.5, -114.0, "ID"), (34.5, -106.0, "NM"),
  (34.5, -112.0, "AZ"), (42.5, -72.5, "VT"), (43.5, -71.5, "NH"),
  (42.3, -71.8, "MA"), (41.7, -71.5, "RI"), (41.6, -72.7, "CT"),
  (43.0, -75.5, "NY"), (40.5, -74.5, "NJ"), (41.0, -77.5, "PA"),
  (39.0, -75.5, "DE"), (39.0, -76.5, "MD"), (38.0, -79.5, "VA"),
  (35.5, -79.5, "NC"), (34.0, -81.0, "SC"), (33.0, -83.5, "GA"),
  (30.5, -84.5, "FL"), (32.5, -86.5, "AL"), (32.5, -90.0, "MS"),
  (31.0, -92.0, "LA"), (35.0, -86.0, "TN"), (37.5, -84.5, "KY"),
  (40.0, -82.5, "OH"), (40.0, -86.0, "IN"), (42.0, -84.5, "MI"),
  (38.5, -81.0, "WV"), (35.5, -92.5, "AR")
]

/-- The river polyline table (name, lat/lon path). -/
def rivers : List (String × List (ℚ × ℚ)) := [
  ("Mississippi",
   [(47.5, -94.5), (46.0, -94.0), (44.0, -92.0), (42.0, -90.5),
    (40.0, -90.0), (38.0, -89.5), (36.0, -89.5), (34.0, -90.5),
    (32.0, -91.0), (30.0, -91.0), (29.0, -89.5)]),
  ("Missouri",
   [(46.0, -111.5), (45.5, -110.0), (44.5, -108.0), (43.5, -104.0),
    (42.5, -100.0), (41.5, -96.0), (40.0, -95.0), (39.0, -93.5),
    (38.5, -90.5)]),
  ("Colorado",
   [(36.0, -114.5), (35.5, -113.0), (34.5, -111.0), (33.5, -109.0),
    (32.5, -107.5), (31.5, -105.5)]),
  ("Rio Grande",
   [(37.0, -107.0), (36.0, -106.0), (34.0, -106.5), (32.0, -106.5),
    (30.0, -104.0), (28.0, -102.0), (26.0, -99.0), (25.8, -97.2)])]

/-- The mountain-range point table (name, lat/lon ridgeline points). -/
def mountains : List (String × List (ℚ × ℚ)) := [
  ("Rockies",
   [(49.0, -114.0), (47.0, -113.5), (45.0, -112.5), (43.0, -109.0),
    (41.0, -105.5), (39.0, -105.5), (37.0, -105.0), (35.0, -106.0)]),
  ("Cascades",
   [(49.0, -121.5), (47.5, -121.5), (46.0, -121.7), (44.0, -122.0),
    (42.0, -122.2), (40.5, -122.0)]),
  ("Sierra Nevada",
   [(40.5, -121.0), (39.0, -120.5), (37.5, -119.0), (36.0, -118.0)]),
  ("Appalachians",
   [(44.0, -71.5), (42.0, -73.5), (40.0, -75.5), (38.0, -78.5),
    (36.0, -81.5), (34.5, -83.5)])]

/-- The Atlantic coastline polyline. -/
def atlanticCoast : List (ℚ × ℚ) := [
  (45.0, -67.0), (44.0, -68.0), (42.5, -70.0), (41.0, -71.0),
  (40.5, -73.5), (39.0, -74.0), (37.5, -75.5), (36.0, -76.0),
  (34.0, -78.0), (32.0, -80.0), (30.0, -81.0), (28.0, -80.5),
  (25.5, -80.0), (24.5, -81.5)]

/-- The Pacific coastline polyline. -/
def pacificCoast : List (ℚ × ℚ) := [
  (48.5, -124.7), (47.0, -124.0), (45.0, -124.0), (43.0, -124.4),
  (41.0, -124.2), (39.0, -123.8), (37.0, -122.5), (35.0, -121.0),
  (33.5, -118.0), (32.5, -117.2)]

/-- The Gulf coastline polyline. -/
def gulfCoast : List (ℚ × ℚ) := [
  (30.0, -87.5), (29.5, -89.0), (29.0, -91.0), (28.5, -93.0),
  (27.5, -95.0), (26.5, -97.0), (25.8, -97.2)]

/-- The Lake Superior outline points. -/
def lakeSuperiorPoints : List (ℚ × ℚ) := [
  (48.0, -89.5), (47.5, -91.0), (46.5, -92.0), (46.5, -94.0),
  (47.0, -92.5), (47.5, -90.5), (48.0, -89.5)]

/-- The `drawStateBorders` closure: draw every border segment (vertical bar
glyph when the segment is more vertical than horizontal), then the state
abbreviation labels, each skipped when it would run off the right edge and
written character by character under `inBounds`. -/
def drawStateBorders (proj : ℚ → ℚ → Int × Int) (d : DisplayGrid) : DisplayGrid :=
  let d := borders.foldl
    (fun d b =>
      let s := proj b.1 b.2.1
      let e := proj b.2.2.1 b.2.2.2
      if (s.1 - e.1).natAbs < (s.2 - e.2).natAbs then
        drawLine d s.1 s.2 e.1 e.2 "│" borderStyleTag false
      else
        drawLine d s.1 s.2 e.1 e.2 "─" borderStyleTag false)
    d
  stateLabels.foldl
    (fun d sl =>
      let p := proj sl.1 sl.2.1
      let label := sl.2.2
      if inBounds d p.1 p.2 &&
          decide (p.1 + (label.length : Int) - 1 < ((d.headD []).length : Int)) then
        (label.toList.enum).foldl
          (fun d ic =>
            if inBounds d (p.1 + (ic.1 : Int)) p.2 then
              setCell d (p.1 + (ic.1 : Int)) p.2
                (styleRender boundaryStyleTag (String.singleton ic.2))
            else d)
          d
      else d)
    d

/-- The per-segment interpolation loop used for rivers and coastlines:
`steps` sample points linearly interpolated between the projected
endpoints, each written only onto a blank cell. -/
def drawInterp (d : DisplayGrid) (p1 p2 : Int × Int) (mark style : String) : DisplayGrid :=
  let steps : Int := max |p2.1 - p1.1| |p2.2 - p1.2|
  if 0 < steps then
    (List.range (steps.toNat + 1)).foldl
      (fun d j =>
        let t : ℚ := (j : ℚ) / (steps : ℚ)
        let x := goInt ((p1.1 : ℚ) + t * ((p2.1 : ℚ) - (p1.1 : ℚ)))
        let y := goInt ((p1.2 : ℚ) + t * ((p2.2 : ℚ) - (p1.2 : ℚ)))
        if inBounds d x y && (cellAt d x y == " ") then
          setCell d x y (styleRender style mark)
        else d)
      d
  else d

/-- Interpolate a whole projected polyline (consecutive point pairs). -/
def drawPolyline (proj : ℚ → ℚ → Int × Int) (path : List (ℚ × ℚ))
    (mark style : String) (d : DisplayGrid) : DisplayGrid :=
  (path.zip path.tail).foldl
    (fun d pq => drawInterp d (proj pq.1.1 pq.1.2) (proj pq.2.1 pq.2.2) mark style)
    d

/-- The river pass: each river path interpolated with the tilde glyph. -/
def drawRivers (proj : ℚ → ℚ → Int × Int) (d : DisplayGrid) : DisplayGrid :=
  rivers.foldl (fun d r => drawPolyline proj r.2 "~" waterStyleTag d) d

/-- The mountain pass: each ridge point (widened one cell left and right)
drawn with a caret onto blank cells only. -/
def drawMountains (proj : ℚ → ℚ → Int × Int) (d : DisplayGrid) : DisplayGrid :=
  mountains.foldl
    (fun d mtn =>
      mtn.2.foldl
        (fun d pt =>
          let p := proj pt.1 pt.2
          let d :=
            if inBounds d p.1 p.2 && (cellAt d p.1 p.2 == " ") then
              setCell d p.1 p.2 (styleRender mountainStyleTag "^")
            else d
          let d :=
            if inBounds d (p.1 - 1) p.2 && (cellAt d (p.1 - 1) p.2 == " ") then
              setCell d (p.1 - 1) p.2 (styleRender mountainStyleTag "^")
            else d
          if inBounds d (p.1 + 1) p.2 && (cellAt d (p.1 + 1) p.2 == " ") then
            setCell d (p.1 + 1) p.2 (styleRender mountainStyleTag "^")
          else d)
        d)
    d

/-- The Great Lakes pass (only reached when the center is in the Great
Lakes region): the Lake Superior outline points (gated on `lat > 46`) and
the Lake Michigan column (gated on `-88 < lon < -85`), written
unconditionally wherever in bounds. -/
def drawGreatLakes (proj : ℚ → ℚ → Int × Int) (lat lon : ℚ) (d : DisplayGrid) : DisplayGrid :=
  let d :=
    if 46 < lat then
      lakeSuperiorPoints.foldl
        (fun d pt =>
          let p := proj pt.1 pt.2
          if inBounds d p.1 p.2 then
            setCell d p.1 p.2 (styleRender waterStyleTag "≈")
          else d)
        d
    else d
  if -88 < lon ∧ lon < -85 then
    (List.range 9).foldl
      (fun d k =>
        let dlat : ℚ := -2 + (k : ℚ) / 2
        let p := proj (lat + dlat) (lon + 3 / 2)
        if inBounds d p.1 p.2 then
          setCell d p.1 p.2 (styleRender waterStyleTag "≈")
        else d)
      d
  else d

/-- The final center-marker write: the bold star always drawn at the grid
center, overwriting whatever is there, guarded only by raw bounds checks. -/
def drawCenterMarker (d : DisplayGrid) (centerX centerY : Int) : DisplayGrid :=
  if 0 ≤ centerY ∧ centerY < (d.length : Int) ∧ 0 ≤ centerX ∧
      centerX < ((d.headD []).length : Int) then
    setCell d centerX centerY (styleRender starStyleTag "★")
  else d

/-- `DrawGeographicBoundaries` (internal/geography): the full rasterizer.
`geocode` is the outcome of the `weather.GeocodeZip(zipCode)` call made at
the top of the function (`none` models its error return, which degrades to
drawing only the center marker); `cosDeg` models `math.Cos` on degrees.
Pass order follows the source: state borders and labels, rivers, mountains,
the three gated coastlines, the gated Great Lakes, then the center marker. -/
def DrawGeographicBoundaries (cosDeg : ℚ → ℚ) (geocode : Option (ℚ × ℚ))
    (d : DisplayGrid) (centerX centerY : Int) : DisplayGrid :=
  match geocode with
  | none => drawCenterMarker d centerX centerY
  | some (lat, lon) =>
    let proj := latLonToDisplay cosDeg lat lon centerX centerY
    let d := drawStateBorders proj d
    let d := drawRivers proj d
    let d := drawMountains proj d
    let d := if -85 < lon then drawPolyline proj atlanticCoast "≈" waterStyleTag d else d
    let d := if lon < -115 then drawPolyline proj pacificCoast "≈" waterStyleTag d else d
    let d :=
      if lat < 33 ∧ -98 < lon then drawPolyline proj gulfCoast "≈" waterStyleTag d else d
    let d :=
      if -93 < lon ∧ lon < -75 ∧ 41 < lat ∧ lat < 49 then drawGreatLakes proj lat lon d
      else d
    drawCenterMarker d centerX centerY

/-! ## Concrete example inputs (used by witnesses and counterexamples) -/

/-- A 1×1 image whose pixel is Go's `color.NRGBA{R:255, G:255, B:0, A:127}`
as `RGBA()` premultiplies it: half-transparent yellow.  Its 16-bit channels
are `(32639, 32639, 0, 32639)`, so its 8-bit alpha is `32639 >>> 8 = 127`. -/
def halfYellowImg : GoImage := ⟨1, 1, fun _ _ => ⟨32639, 32639, 0, 32639⟩⟩

/-- A 1×1 fully transparent image (`RGBA() = (0, 0, 0, 0)`). -/
def clearImg : GoImage := ⟨1, 1, fun _ _ => ⟨0, 0, 0, 0⟩⟩

/-- A 1×1 opaque black image (`RGBA() = (0, 0, 0, 65535)`). -/
def blackImg : GoImage := ⟨1, 1, fun _ _ => ⟨0, 0, 0, 65535⟩⟩

/-- A RainViewer manifest listing a newer past entry before an older one. -/
def unsortedManifest : List PastEntry := [⟨100, "newer"⟩, ⟨50, "older"⟩]

/-- The frame list the unsorted manifest yields when every tile fetch
succeeds. -/
def unsortedFrames : List Frame :=
  (fetchRealRadarData (some unsortedManifest) (fun _ => some blackImg) 0 fun _ => none).elim
    [] Prod.fst

/-- Five placeholder frames with distinct increasing timestamps. -/
def fiveFrames : List Frame := (List.range 5).map fun i => ⟨[], (i : Int), ""⟩

/-- A mid-playback session: Displaying, frame 3 of 5, not paused. -/
def playbackModel : Model :=
  { initialModel with
    state := .displaying, zipCode := "10001", currentFrame := 3,
    animationActive := true, radar := { emptyRadarData with Frames := fiveFrames } }

/-- The fresh data a background refresh delivers. -/
def refreshedData : RadarData :=
  { emptyRadarData with
    Frames := (List.range 5).map fun i => ⟨[], 100 + (i : Int), ""⟩,
    Location := "New York, New York", Conditions := "Clear" }

/-- A displaying session at frame 2 of 5 (used by the navigation witness). -/
def navModel : Model :=
  { initialModel with
    state := .displaying, zipCode := "10001", currentFrame := 2,
    animationActive := true, radar := { emptyRadarData with Frames := fiveFrames } }

/-- Alerts with severities Minor, Severe, Moderate, in encounter order. -/
def mixedAlerts : List Alert :=
  [⟨"Flood Watch", "Minor", "", "", "", 0⟩,
   ⟨"Tornado Warning", "Severe", "", "", "", 0⟩,
   ⟨"Wind Advisory", "Moderate", "", "", "", 0⟩]

/-- Oracles for a load where geocoding and station lookup succeed but both
radar providers yield zero frames (empty manifest, every Iowa-State fetch
failing). -/
def failedFetchOracles : Oracles :=
  { geocode := some (⟨40.75, -73.99, "New York", "New York"⟩ : ℚ × ℚ × String × String)
    nearestStation := some "KOKX"
    currentConditions := (68, "Clear")
    alerts := []
    manifest := some []
    tileFetch := fun _ => none
    baseTime := 0
    iowaFetch := fun _ => none
    now := 0 }

/-- A loading-state model awaiting that load's completion. -/
def loadingModel : Model := { initialModel with state := .loading, zipCode := "10001" }

/-! ## Basic bounds for the image-to-grid converter -/

/-- `u8hi` produces a byte. -/
theorem u8hi_le (v : Nat) : u8hi v ≤ 255 := by
  have := Nat.mod_lt (v >>> 8) (y := 256) (by norm_num)
  simpa [u8hi] using Nat.lt_succ_iff.mp this

/-- The clamps land in `[0, 10]`. -/
theorem clampIntensity_mem (i : Int) : 0 ≤ clampIntensity i ∧ clampIntensity i ≤ 10 := by
  simp only [clampIntensity]
  split_ifs <;> omega

/-- The clamps do nothing on a value already in `[0, 10]`. -/
theorem clampIntensity_eq_self {i : Int} (h0 : 0 ≤ i) (h10 : i ≤ 10) :
    clampIntensity i = i := by
  simp only [clampIntensity]
  split_ifs <;> omega

/-- Every classification branch is non-negative. -/
theorem classifyPixel_nonneg (r8 g8 b8 : Nat) : 0 ≤ classifyPixel r8 g8 b8 := by
  unfold classifyPixel
  split_ifs <;> omega

/-- On byte inputs the classification never exceeds 9: the red band is at
most `8 + 55/28 = 9`, the orange band at most `5 + 55/50 = 6`, the green
band at most `1 + 105/50 = 3`, and the remaining branches are 1, 4 and 0. -/
theorem classifyPixel_le_nine (r8 g8 b8 : Nat) (hr : r8 ≤ 255) (hg : g8 ≤ 255) :
    classifyPixel r8 g8 b8 ≤ 9 := by
  have d1 : (r8 - 200) / 28 ≤ 1 := by
    calc (r8 - 200) / 28 ≤ 55 / 28 := Nat.div_le_div_right (by omega)
    _ = 1 := by norm_num
  have d2 : (r8 - 200) / 50 ≤ 1 := by
    calc (r8 - 200) / 50 ≤ 55 / 50 := Nat.div_le_div_right (by omega)
    _ = 1 := by norm_num
  have d3 : (g8 - 150) / 50 ≤ 2 := by
    calc (g8 - 150) / 50 ≤ 105 / 50 := Nat.div_le_div_right (by omega)
    _ = 2 := by norm_num
  unfold classifyPixel
  split_ifs <;> omega

/-- A sampled cell value is non-negative and at most 9 (hence in `[0,10]`
and never 10). -/
theorem samplePixel_mem (img : GoImage) (x y : Nat) :
    0 ≤ samplePixel img x y ∧ samplePixel img x y ≤ 9 := by
  simp only [samplePixel]
  split_ifs with h
  · omega
  · set c := img.At (x * img.width / RadarWidth) (y * img.height / RadarHeight)
    have h9 := classifyPixel_le_nine (u8hi c.r) (u8hi c.g) (u8hi c.b) (u8hi_le _) (u8hi_le _)
    have h0 := classifyPixel_nonneg (u8hi c.r) (u8hi c.g) (u8hi c.b)
    rw [clampIntensity_eq_self h0 (by omega)]
    exact ⟨h0, h9⟩

/-- Reading an in-range cell of the converted grid gives the sampled value. -/
theorem gridCell_imageToRadarData (img : GoImage) {x y : Nat}
    (hx : x < RadarWidth) (hy : y < RadarHeight) :
    gridCell (imageToRadarData img) y x = samplePixel img x y := by
  simp [gridCell, imageToRadarData, List.getD_eq_getElem?_getD, List.getElem?_map,
    List.getElem?_range, hx, hy]

/-- Reading outside the populated area of the converted grid gives the
`getD` default 0. -/
theorem gridCell_oob (g : List (List Int)) {y x : Nat}
    (h : g.length ≤ y ∨ (g.getD y []).length ≤ x) :
    gridCell g y x = 0 := by
  rcases h with h | h
  · simp only [gridCell]
    rw [List.getD_eq_default _ _ h]
    rfl
  · simp only [gridCell]
    exact List.getD_eq_default _ _ h

/-- `samplePixel` spelled through `sampledColor` (definitional). -/
theorem samplePixel_eq (img : GoImage) (x y : Nat) :
    samplePixel img x y =
      if (sampledColor img x y).a < 128 then 0
      else clampIntensity (classifyPixel (u8hi (sampledColor img x y).r)
        (u8hi (sampledColor img x y).g) (u8hi (sampledColor img x y).b)) := rfl

/-! ## Claim C2 — transparency handling -/

/-- C2 fails as stated: this pixel (Go `color.NRGBA{255, 255, 0, 127}`
premultiplied) has alpha 127 on the 0-255 scale, below 128, yet its cell is
4, not 0 — the code compares the 16-bit alpha (32639) against 128, so any
pixel with 8-bit alpha at least 1 is classified by RGB; here the
`r8 > 100 && g8 > 100 && b8 < 50` rule matches. -/
theorem alphaScale_counterexample :
    u8hi (halfYellowImg.At 0 0).a = 127 ∧
    gridCell (imageToRadarData halfYellowImg) 0 0 = 4 := by decide

/-- C2 (amended): a sampled pixel whose alpha as returned by the RGBA query
(16-bit, 0-65535) is below 128 — on the 0-255 scale, only fully transparent
pixels — is treated as no data: its grid cell is left at 0 regardless of
the pixel's RGB values. -/
theorem transparent_pixel_zero (img : GoImage) (x y : Nat)
    (hx : x < RadarWidth) (hy : y < RadarHeight)
    (ha : (sampledColor img x y).a < 128) :
    gridCell (imageToRadarData img) y x = 0 := by
  rw [gridCell_imageToRadarData img hx hy, samplePixel_eq, if_pos ha]

/-- Witness for `transparent_pixel_zero` at the fully transparent image. -/
theorem transparent_pixel_zero_witness :
    (sampledColor clearImg 0 0).a < 128 ∧
    gridCell (imageToRadarData clearImg) 0 0 = 0 :=
  ⟨by decide, transparent_pixel_zero clearImg 0 0 (by decide) (by decide) (by decide)⟩

/-! ## Claim C3 — totality and range of the conversion -/

/-- C3: the conversion never fails: for every input image it returns a
fully populated `RadarHeight × RadarWidth` grid whose every cell is an
integer in `[0, 10]`, and if the classification matches no sampled pixel
the grid is all zeros (transparent pixels are also left at 0). -/
theorem imageToRadarData_total (img : GoImage) :
    (imageToRadarData img).length = RadarHeight ∧
    (∀ row ∈ imageToRadarData img, row.length = RadarWidth) ∧
    (∀ row ∈ imageToRadarData img, ∀ v ∈ row, 0 ≤ v ∧ v ≤ 10) ∧
    ((∀ x y : Nat, classifyPixel (u8hi (sampledColor img x y).r)
        (u8hi (sampledColor img x y).g) (u8hi (sampledColor img x y).b) = 0) →
      ∀ row ∈ imageToRadarData img, ∀ v ∈ row, v = 0) := by
  refine ⟨by simp [imageToRadarData], ?_, ?_, ?_⟩
  · intro row hrow
    simp only [imageToRadarData, List.mem_map, List.mem_range] at hrow
    obtain ⟨y, -, rfl⟩ := hrow
    simp
  · intro row hrow v hv
    simp only [imageToRadarData, List.mem_map, List.mem_range] at hrow
    obtain ⟨y, -, rfl⟩ := hrow
    simp only [List.mem_map, List.mem_range] at hv
    obtain ⟨x, -, rfl⟩ := hv
    have := samplePixel_mem img x y
    omega
  · intro hnone row hrow v hv
    simp only [imageToRadarData, List.mem_map, List.mem_range] at hrow
    obtain ⟨y, -, rfl⟩ := hrow
    simp only [List.mem_map, List.mem_range] at hv
    obtain ⟨x, -, rfl⟩ := hv
    rw [samplePixel_eq]
    split_ifs with h
    · rfl
    · rw [hnone x y]; rfl

/-- Witness for `imageToRadarData_total` at the opaque black image (which
matches no classification rule). -/
theorem imageToRadarData_total_witness :
    (imageToRadarData blackImg).length = RadarHeight ∧
    ((imageToRadarData blackImg).getD 0 []).getD 0 0 = 0 := by
  have ht := imageToRadarData_total blackImg
  have hz : ∀ x y : Nat, classifyPixel (u8hi (sampledColor blackImg x y).r)
      (u8hi (sampledColor blackImg x y).g) (u8hi (sampledColor blackImg x y).b) = 0 := by
    intro x y
    show classifyPixel (u8hi 0) (u8hi 0) (u8hi 0) = 0
    decide
  exact ⟨ht.1,
    ht.2.2.2 hz ((imageToRadarData blackImg).getD 0 [])
      (by decide) (((imageToRadarData blackImg).getD 0 []).getD 0 0) (by decide)⟩

/-! ## Claim C10 — intensity 10 is unreachable from images -/

set_option maxRecDepth 100000 in
/-- C10: on byte inputs the classifier never exceeds 9 (red band at most
`8 + (255-200)/28 = 9`, every other rule at most 6), so the `> 10` clamp is
unreachable (the clamp is the identity on every classifier output) and no
cell of an image-converted grid is ever 10; intensity 10 does arise from
the synthetic generator (frame 5, row 14, column 9). -/
theorem no_level_ten_from_images :
    (∀ r g b : Nat, classifyPixel (u8hi r) (u8hi g) (u8hi b) ≤ 9) ∧
    (∀ r g b : Nat,
      clampIntensity (classifyPixel (u8hi r) (u8hi g) (u8hi b)) =
        classifyPixel (u8hi r) (u8hi g) (u8hi b)) ∧
    (∀ (img : GoImage) (y x : Nat), gridCell (imageToRadarData img) y x ≤ 9) ∧
    gridCell (genFrameData 5) 14 9 = 10 := by
  have hcl : ∀ r g b : Nat, classifyPixel (u8hi r) (u8hi g) (u8hi b) ≤ 9 := fun r g b =>
    classifyPixel_le_nine _ _ _ (u8hi_le r) (u8hi_le g)
  refine ⟨hcl, ?_, ?_, by decide⟩
  · intro r g b
    exact clampIntensity_eq_self (classifyPixel_nonneg _ _ _)
      (le_trans (hcl r g b) (by norm_num))
  · intro img y x
    by_cases hy : y < RadarHeight
    · by_cases hx : x < RadarWidth
      · rw [gridCell_imageToRadarData img hx hy]
        exact (samplePixel_mem img x y).2
      · refine le_of_eq_of_le (gridCell_oob _ (Or.inr ?_)) (by norm_num)
        have hrow : (imageToRadarData img).getD y [] =
            (List.range RadarWidth).map (fun x => samplePixel img x y) := by
          simp [imageToRadarData, List.getD_eq_getElem?_getD, List.getElem?_map,
            List.getElem?_range, hy]
        rw [hrow]
        simp only [List.length_map, List.length_range]
        omega
    · refine le_of_eq_of_le (gridCell_oob _ (Or.inl ?_)) (by norm_num)
      rw [(imageToRadarData_total img).1]
      omega

/-! ## Claim C4 — frame ordering -/

/-- Frames ordered oldest-timestamp-first: every adjacent pair of
timestamps is non-decreasing. -/
def oldestFirst (fr : List Frame) : Prop :=
  List.Chain' (· ≤ ·) (fr.map Frame.Timestamp)

/-- The RainViewer tile loop appends, to the accumulator's timestamps, a
sublist of the manifest's times, in manifest order. -/
theorem fetchFromRainViewer_timestamps (tileFetch : PastEntry → Option GoImage)
    (entries : List PastEntry) :
    ∀ acc : List Frame,
      ∃ s, (fetchFromRainViewer tileFetch entries acc).map Frame.Timestamp =
          acc.map Frame.Timestamp ++ s ∧ s.Sublist (entries.map PastEntry.Time) := by
  induction entries with
  | nil =>
    intro acc
    exact ⟨[], by simp [fetchFromRainViewer], List.Sublist.refl []⟩
  | cons e rest ih =>
    intro acc
    rw [fetchFromRainViewer]
    cases htf : tileFetch e with
    | some img =>
      split_ifs with hlen
      · exact ⟨[e.Time], by simp, List.Sublist.cons₂ e.Time (List.nil_sublist _)⟩
      · obtain ⟨s, hs, hsub⟩ :=
          ih (acc ++ [(⟨imageToRadarData img, e.Time, "Composite"⟩ : Frame)])
        exact ⟨e.Time :: s, by simpa using hs, List.Sublist.cons₂ e.Time hsub⟩
    | none =>
      split_ifs with hlen
      · exact ⟨[], by simp, List.nil_sublist _⟩
      · obtain ⟨s, hs, hsub⟩ := ih acc
        exact ⟨s, by simpa using hs, List.Sublist.cons e.Time hsub⟩

/-- The Iowa-State loop appends, to the accumulator's timestamps, a sublist
of the aligned 5-minute-step request times, in request (newest-first)
order. -/
theorem iowaLoop_timestamps (base : Int) (iowaFetch : Int → Option GoImage)
    (is : List Nat) :
    ∀ acc : List Frame,
      ∃ s, (iowaLoop base iowaFetch is acc).map Frame.Timestamp =
          acc.map Frame.Timestamp ++ s ∧
        s.Sublist (is.map fun i : Nat => alignTime (base - 5 * (i : Int))) := by
  induction is with
  | nil =>
    intro acc
    exact ⟨[], by simp [iowaLoop], List.Sublist.refl []⟩
  | cons i rest ih =>
    intro acc
    rw [iowaLoop]
    cases htf : iowaFetch (alignTime (base - 5 * (i : Int))) with
    | some img =>
      split_ifs with hlen
      · exact ⟨[alignTime (base - 5 * (i : Int))], by simp,
          List.Sublist.cons₂ _ (List.nil_sublist _)⟩
      · obtain ⟨s, hs, hsub⟩ :=
          ih (acc ++ [(⟨imageToRadarData img, alignTime (base - 5 * (i : Int)), "N0R"⟩ : Frame)])
        exact ⟨alignTime (base - 5 * (i : Int)) :: s, by simpa using hs,
          List.Sublist.cons₂ _ hsub⟩
    | none =>
      split_ifs with hlen
      · exact ⟨[], by simp, List.nil_sublist _⟩
      · obtain ⟨s, hs, hsub⟩ := ih acc
        exact ⟨s, by simpa using hs, List.Sublist.cons _ hsub⟩

/-- The aligned request times of the 24 Iowa-State iterations are strictly
decreasing (newest first). -/
theorem iowaTimes_decreasing (base : Int) :
    ((List.range 24).map fun i : Nat => alignTime (base - 5 * (i : Int))).Pairwise (· > ·) := by
  rw [List.pairwise_map]
  refine (List.pairwise_lt_range 24).imp ?_
  intro a b hab
  simp only [alignTime]
  omega

/-- The Iowa-State fallback's frames (pre-reversal) have strictly
decreasing timestamps. -/
theorem iowaLoop_decreasing (base : Int) (iowaFetch : Int → Option GoImage) :
    ((iowaLoop base iowaFetch (List.range 24) []).map Frame.Timestamp).Pairwise (· > ·) := by
  obtain ⟨s, hs, hsub⟩ := iowaLoop_timestamps base iowaFetch (List.range 24) []
  rw [hs]
  simpa using List.Pairwise.sublist hsub (iowaTimes_decreasing base)

/-- C4 (amended): the single-station fallback collects frames newest-first
and reverses before returning, so its output is always oldest-first; the
composite path preserves the manifest's order, so every frame list the
Frame Source returns is oldest-first provided the manifest's past entries
are in non-decreasing time order (the code does not itself sort them). -/
theorem fetchRealRadarData_ordering (manifest : Option (List PastEntry))
    (tileFetch : PastEntry → Option GoImage) (base : Int)
    (iowaFetch : Int → Option GoImage) (fr : List Frame) (isReal : Bool)
    (hm : ∀ entries, manifest = some entries → (entries.map PastEntry.Time).Pairwise (· ≤ ·))
    (h : fetchRealRadarData manifest tileFetch base iowaFetch = some (fr, isReal)) :
    oldestFirst fr ∧
    ((manifest = none ∨
        ∃ es, manifest = some es ∧ fetchFromRainViewer tileFetch es [] = []) →
      fr = (iowaLoop base iowaFetch (List.range 24) []).reverse) := by
  have hiowa : ∀ fr2 : List Frame, ∀ b2 : Bool,
      iowaFallback base iowaFetch = some (fr2, b2) →
      fr2 = (iowaLoop base iowaFetch (List.range 24) []).reverse ∧ oldestFirst fr2 := by
    intro fr2 b2 h2
    simp only [iowaFallback] at h2
    split_ifs at h2 with hz
    simp only [Option.some.injEq, Prod.mk.injEq] at h2
    obtain ⟨rfl, -⟩ := h2
    refine ⟨rfl, List.Pairwise.chain' ?_⟩
    rw [List.map_reverse, List.pairwise_reverse]
    exact (iowaLoop_decreasing base iowaFetch).imp (fun hab => le_of_lt hab)
  cases hman : manifest with
  | none =>
    rw [hman] at h
    simp only [fetchRealRadarData] at h
    obtain ⟨hrev, hsorted⟩ := hiowa fr isReal h
    exact ⟨hsorted, fun _ => hrev⟩
  | some entries =>
    rw [hman] at h
    simp only [fetchRealRadarData] at h
    split_ifs at h with hpos
    · simp only [Option.some.injEq, Prod.mk.injEq] at h
      obtain ⟨rfl, -⟩ := h
      constructor
      · obtain ⟨s, hs, hsub⟩ := fetchFromRainViewer_timestamps tileFetch entries []
        refine List.Pairwise.chain' ?_
        rw [hs]
        simpa using List.Pairwise.sublist hsub (hm entries hman)
      · rintro (hnone | ⟨es, hes, hempty⟩)
        · simp at hnone
        · obtain rfl : es = entries := (Option.some_injective _ hes).symm
          rw [hempty] at hpos
          simp at hpos
    · obtain ⟨hrev, hsorted⟩ := hiowa fr isReal h
      exact ⟨hsorted, fun _ => hrev⟩

/-- The frames the C4 witness's failed-composite / all-succeeding
single-station run returns. -/
def iowaWitnessFrames : List Frame :=
  (iowaLoop 0 (fun _ => some blackImg) (List.range 24) []).reverse

/-- Witness for `fetchRealRadarData_ordering`: with no manifest and every
single-station fetch succeeding, the returned list is the reversed
newest-first collection and is oldest-first. -/
theorem fetchRealRadarData_ordering_witness :
    oldestFirst iowaWitnessFrames ∧
    iowaWitnessFrames = (iowaLoop 0 (fun _ => some blackImg) (List.range 24) []).reverse := by
  have h := fetchRealRadarData_ordering none (fun _ => some blackImg) 0
    (fun _ => some blackImg) iowaWitnessFrames true
    (fun _ hco => by simp at hco) rfl
  exact ⟨h.1, h.2 (Or.inl rfl)⟩

/-- C4 fails as stated for the composite path: a manifest listing times
`[100, 50]` (newer first) with every tile fetch succeeding yields frames
with timestamps `[100, 50]`, which is not oldest-first. -/
theorem unsortedManifest_counterexample :
    unsortedFrames.map Frame.Timestamp = [100, 50] ∧ ¬ oldestFirst unsortedFrames := by
  have h1 : unsortedFrames.map Frame.Timestamp = [100, 50] := rfl
  refine ⟨h1, ?_⟩
  intro hch
  rw [oldestFirst, h1] at hch
  simp at hch

/-! ## Claim C5 — synthetic fallback on total fetch failure -/

/-- The synthetic generator always yields exactly `count` frames. -/
theorem generateRadarFrames_length (st : String) (count : Nat) (now : Int) :
    (generateRadarFrames st count now).length = count := by
  simp [generateRadarFrames]

/-- C5: if geocoding and the station lookup succeed but both radar
providers yield zero frames, the load still completes: `LoadData` posts a
loaded message whose data has `isRealData = false` and a non-empty
synthetic frame list of exactly `maxFrames` frames, and handling that
message from the Loading state reaches Displaying carrying that data. -/
theorem total_fetch_failure_synthetic (o : Oracles) (m : Model) (now : Int)
    (hstate : m.state = .loading)
    (hgeo : o.geocode.isSome) (hsta : o.nearestStation.isSome)
    (hrv : ∀ entries, o.manifest = some entries →
      fetchFromRainViewer o.tileFetch entries [] = [])
    (hio : iowaLoop o.baseTime o.iowaFetch (List.range 24) [] = []) :
    ∃ d, LoadData o = .loaded d ∧ d.IsRealData = false ∧
      d.Frames.length = MaxFrames ∧ d.Frames ≠ [] ∧
      (update m (.loaded d) now).1.state = .displaying ∧
      (update m (.loaded d) now).1.radar = d := by
  obtain ⟨⟨lat, lon, city, st⟩, hg⟩ := Option.isSome_iff_exists.mp hgeo
  obtain ⟨station, hs⟩ := Option.isSome_iff_exists.mp hsta
  have hfetch : fetchRealRadarData o.manifest o.tileFetch o.baseTime o.iowaFetch = none := by
    have hfall : iowaFallback o.baseTime o.iowaFetch = none := by
      simp [iowaFallback, hio]
    cases hman : o.manifest with
    | none => simp [fetchRealRadarData, hfall]
    | some entries => simp [fetchRealRadarData, hrv entries hman, hfall]
  refine ⟨{ Frames := generateRadarFrames station MaxFrames o.now
            Location := city ++ ", " ++ st
            Station := station
            LastUpdated := o.now
            IsRealData := false
            Temperature := o.currentConditions.1
            Conditions := o.currentConditions.2
            Alerts := o.alerts }, ?_, rfl, ?_, ?_, ?_, ?_⟩
  · simp [LoadData, hg, hs, hfetch]
  · exact generateRadarFrames_length station MaxFrames o.now
  · intro hnil
    have := congrArg List.length hnil
    rw [generateRadarFrames_length station MaxFrames o.now] at this
    simp [MaxFrames] at this
  · have hne : ¬(m.state = UiState.displaying ∧ m.isBackgroundRefresh = true) := by
      rw [hstate]
      rintro ⟨hc, -⟩
      exact absurd hc (by decide)
    simp only [update]
    split_ifs <;> rfl
  · simp only [update]
    split_ifs <;> rfl

/-- Witness for `total_fetch_failure_synthetic` at the concrete failing
oracles and a concrete loading model. -/
theorem total_fetch_failure_synthetic_witness :
    ∃ d, LoadData failedFetchOracles = .loaded d ∧ d.IsRealData = false ∧
      d.Frames.length = MaxFrames ∧ d.Frames ≠ [] ∧
      (update loadingModel (.loaded d) 0).1.state = .displaying ∧
      (update loadingModel (.loaded d) 0).1.radar = d :=
  total_fetch_failure_synthetic failedFetchOracles loadingModel 0 rfl rfl rfl
    (fun entries hent => by
      obtain rfl : entries = [] := (Option.some_injective _ hent).symm ▸ rfl
      rfl)
    rfl


/-! ## Claim C1 — background refresh and playback position -/

/-- C1 fails on the code: from a Displaying session at `currentFrame = 3`,
`isPaused = false`, the refresh tick posts the load command and re-arms but
leaves the model unchanged — in particular it never sets
`isBackgroundRefresh` — so when the load completes, the loaded-message
handler takes the normal-load branch and resets `currentFrame` to 0
(re-asserting `isPaused = false`), contradicting the handler's own
background-refresh comment and the spec.  The session does remain in
Displaying with the new data. -/
theorem background_refresh_resets_frame :
    playbackModel.currentFrame = 3 ∧ playbackModel.isPaused = false ∧
    (update playbackModel .refreshTick 0).2 = [.loadData "10001", .scheduleRefresh] ∧
    (update playbackModel .refreshTick 0).1 = playbackModel ∧
    (update (update playbackModel .refreshTick 0).1 (.loaded refreshedData) 1).1.currentFrame
      = 0 ∧
    (update (update playbackModel .refreshTick 0).1 (.loaded refreshedData) 1).1.isPaused
      = false ∧
    (update (update playbackModel .refreshTick 0).1 (.loaded refreshedData) 1).1.state
      = .displaying ∧
    (update (update playbackModel .refreshTick 0).1 (.loaded refreshedData) 1).1.radar
      = refreshedData := by
  decide

/-! ## Claim C7 — frame index stays in bounds -/

/-- A frame-advance timer fire or a previous/next navigation key event. -/
def navEvent (msg : Msg) : Prop :=
  msg = .frameTick ∨ msg = .key "left" ∨ msg = .key "a" ∨
    msg = .key "right" ∨ msg = .key "d"

/-- Run a list of messages through `update`, discarding commands (the wall
clock is irrelevant to the events considered here). -/
def runMsgs (m : Model) (msgs : List Msg) : Model :=
  msgs.foldl (fun m msg => (update m msg 0).1) m

/-- Reduction of `update` on the previous-frame keys. -/
theorem update_key_prev (m : Model) (now : Int) (s : String)
    (hs : s = "left" ∨ s = "a") :
    update m (.key s) now =
      if m.state = .displaying ∧ 0 < m.radar.Frames.length then
        ({ m with
           currentFrame := (m.currentFrame - 1 + (m.radar.Frames.length : Int)).tmod
             (m.radar.Frames.length : Int) }, [])
      else (m, []) := by
  rcases hs with rfl | rfl <;> rfl

/-- Reduction of `update` on the next-frame keys. -/
theorem update_key_next (m : Model) (now : Int) (s : String)
    (hs : s = "right" ∨ s = "d") :
    update m (.key s) now =
      if m.state = .displaying ∧ 0 < m.radar.Frames.length then
        ({ m with
           currentFrame := (m.currentFrame + 1).tmod (m.radar.Frames.length : Int) }, [])
      else (m, []) := by
  rcases hs with rfl | rfl <;> rfl

/-- Reduction of `update` on the frame-advance timer fire. -/
theorem update_frameTick (m : Model) (now : Int) :
    update m .frameTick now =
      if m.state = .displaying ∧ m.animationActive = true ∧ ¬m.isPaused = true ∧
          0 < m.radar.Frames.length then
        ({ m with
           currentFrame := (m.currentFrame + 1).tmod (m.radar.Frames.length : Int) },
         [.animateFrame])
      else ({ m with animationActive := false }, []) := rfl

/-- One navigation event preserves the frame list and keeps the index in
bounds. -/
theorem navEvent_step (m : Model) (msg : Msg) (hmsg : navEvent msg)
    (h0 : 0 ≤ m.currentFrame ∧ m.currentFrame < (m.radar.Frames.length : Int)) :
    (update m msg 0).1.radar = m.radar ∧
    0 ≤ (update m msg 0).1.currentFrame ∧
    (update m msg 0).1.currentFrame < (m.radar.Frames.length : Int) := by
  have hpos : (0 : Int) < (m.radar.Frames.length : Int) := by omega
  rcases hmsg with rfl | rfl | rfl | rfl | rfl
  · -- frame-advance timer fire
    rw [update_frameTick m 0]
    split_ifs with hc
    · exact ⟨rfl, Int.tmod_nonneg _ (by omega), Int.tmod_lt_of_pos _ hpos⟩
    · exact ⟨rfl, h0.1, h0.2⟩
  · rw [update_key_prev m 0 "left" (Or.inl rfl)]
    split_ifs with hc
    · exact ⟨rfl, Int.tmod_nonneg _ (by omega), Int.tmod_lt_of_pos _ hpos⟩
    · exact ⟨rfl, h0.1, h0.2⟩
  · rw [update_key_prev m 0 "a" (Or.inr rfl)]
    split_ifs with hc
    · exact ⟨rfl, Int.tmod_nonneg _ (by omega), Int.tmod_lt_of_pos _ hpos⟩
    · exact ⟨rfl, h0.1, h0.2⟩
  · rw [update_key_next m 0 "right" (Or.inl rfl)]
    split_ifs with hc
    · exact ⟨rfl, Int.tmod_nonneg _ (by omega), Int.tmod_lt_of_pos _ hpos⟩
    · exact ⟨rfl, h0.1, h0.2⟩
  · rw [update_key_next m 0 "d" (Or.inr rfl)]
    split_ifs with hc
    · exact ⟨rfl, Int.tmod_nonneg _ (by omega), Int.tmod_lt_of_pos _ hpos⟩
    · exact ⟨rfl, h0.1, h0.2⟩

/-- C7: when the frame list is non-empty and the index is in bounds, any
sequence of frame-advance timer fires and previous/next navigation key
events leaves the frame list untouched and `currentFrameIndex` within
`[0, len(frames))` — every advance and navigation step is taken modulo
`len(frames)`. -/
theorem currentFrame_stays_in_bounds (m : Model) (msgs : List Msg)
    (hmsgs : ∀ msg ∈ msgs, navEvent msg)
    (hlen : 0 < m.radar.Frames.length)
    (h0 : 0 ≤ m.currentFrame ∧ m.currentFrame < (m.radar.Frames.length : Int)) :
    (runMsgs m msgs).radar.Frames = m.radar.Frames ∧
    0 ≤ (runMsgs m msgs).currentFrame ∧
    (runMsgs m msgs).currentFrame < ((runMsgs m msgs).radar.Frames.length : Int) := by
  induction msgs generalizing m with
  | nil => exact ⟨rfl, h0.1, h0.2⟩
  | cons msg rest ih =>
    obtain ⟨hrad, hn0, hn1⟩ := navEvent_step m msg (hmsgs msg (by simp)) h0
    have hrest := ih (update m msg 0).1 (fun x hx => hmsgs x (by simp [hx]))
      (by rw [hrad]; exact hlen) ⟨hn0, by rw [hrad]; exact hn1⟩
    refine ⟨?_, hrest.2.1, hrest.2.2⟩
    rw [show runMsgs m (msg :: rest) = runMsgs (update m msg 0).1 rest from rfl,
      hrest.1, hrad]

/-- Witness for `currentFrame_stays_in_bounds`: an advance and two
previous-frame steps from index 2 of 5. -/
theorem currentFrame_stays_in_bounds_witness :
    (runMsgs navModel [.frameTick, .key "left", .key "a"]).radar.Frames =
      navModel.radar.Frames ∧
    0 ≤ (runMsgs navModel [.frameTick, .key "left", .key "a"]).currentFrame ∧
    (runMsgs navModel [.frameTick, .key "left", .key "a"]).currentFrame <
      ((runMsgs navModel [.frameTick, .key "left", .key "a"]).radar.Frames.length : Int) :=
  currentFrame_stays_in_bounds navModel [.frameTick, .key "left", .key "a"]
    (by
      intro msg hm
      fin_cases hm
      · exact Or.inl rfl
      · exact Or.inr (Or.inl rfl)
      · exact Or.inr (Or.inr (Or.inl rfl)))
    (by decide) (by decide)

/-! ## Claim C8 — frame rate stays within bounds -/

/-- A speed-up or slow-down key event. -/
def speedEvent (msg : Msg) : Prop :=
  msg = .key "+" ∨ msg = .key "=" ∨ msg = .key "-" ∨ msg = .key "_"

/-- Reduction of `update` on the speed-up keys: subtract 100ms only while
above 100ms. -/
theorem update_key_speedUp (m : Model) (now : Int) (s : String)
    (hs : s = "+" ∨ s = "=") :
    update m (.key s) now =
      if 100 < m.frameRate then ({ m with frameRate := m.frameRate - 100 }, [])
      else (m, []) := by
  rcases hs with rfl | rfl <;> rfl

/-- Reduction of `update` on the slow-down keys: add 100ms only while below
2000ms. -/
theorem update_key_slowDown (m : Model) (now : Int) (s : String)
    (hs : s = "-" ∨ s = "_") :
    update m (.key s) now =
      if m.frameRate < 2000 then ({ m with frameRate := m.frameRate + 100 }, [])
      else (m, []) := by
  rcases hs with rfl | rfl <;> rfl

/-- One speed event keeps the frame rate a multiple of 100ms within
`[100ms, 2000ms]`. -/
theorem speedEvent_step (m : Model) (msg : Msg) (hmsg : speedEvent msg)
    (h : 100 ≤ m.frameRate ∧ m.frameRate ≤ 2000 ∧ m.frameRate % 100 = 0) :
    100 ≤ (update m msg 0).1.frameRate ∧ (update m msg 0).1.frameRate ≤ 2000 ∧
    (update m msg 0).1.frameRate % 100 = 0 := by
  rcases hmsg with rfl | rfl | rfl | rfl
  · rw [update_key_speedUp m 0 "+" (Or.inl rfl)]
    split_ifs with hc
    · exact ⟨show (100 : Int) ≤ m.frameRate - 100 from by omega,
        show m.frameRate - 100 ≤ 2000 from by omega,
        show (m.frameRate - 100) % 100 = 0 from by omega⟩
    · exact h
  · rw [update_key_speedUp m 0 "=" (Or.inr rfl)]
    split_ifs with hc
    · exact ⟨show (100 : Int) ≤ m.frameRate - 100 from by omega,
        show m.frameRate - 100 ≤ 2000 from by omega,
        show (m.frameRate - 100) % 100 = 0 from by omega⟩
    · exact h
  · rw [update_key_slowDown m 0 "-" (Or.inl rfl)]
    split_ifs with hc
    · exact ⟨show (100 : Int) ≤ m.frameRate + 100 from by omega,
        show m.frameRate + 100 ≤ 2000 from by omega,
        show (m.frameRate + 100) % 100 = 0 from by omega⟩
    · exact h
  · rw [update_key_slowDown m 0 "_" (Or.inr rfl)]
    split_ifs with hc
    · exact ⟨show (100 : Int) ≤ m.frameRate + 100 from by omega,
        show m.frameRate + 100 ≤ 2000 from by omega,
        show (m.frameRate + 100) % 100 = 0 from by omega⟩
    · exact h

/-- The invariant holds across any sequence of speed events. -/
theorem speed_invariant (msgs : List Msg) :
    ∀ m : Model, (∀ msg ∈ msgs, speedEvent msg) →
      100 ≤ m.frameRate ∧ m.frameRate ≤ 2000 ∧ m.frameRate % 100 = 0 →
      100 ≤ (runMsgs m msgs).frameRate ∧ (runMsgs m msgs).frameRate ≤ 2000 ∧
        (runMsgs m msgs).frameRate % 100 = 0 := by
  induction msgs with
  | nil => exact fun m _ h => h
  | cons msg rest ih =>
    intro m hmsgs h
    exact ih (update m msg 0).1 (fun x hx => hmsgs x (by simp [hx]))
      (speedEvent_step m msg (hmsgs msg (by simp)) h)

/-- C8: starting from the initial 300ms frame rate, any sequence of
speed-up and slow-down key presses leaves `frameRate` within
`[100ms, 2000ms]` (a speed-up subtracts 100ms only while above 100ms, a
slow-down adds 100ms only while below 2s, as `update_key_speedUp` and
`update_key_slowDown` show). -/
theorem frameRate_stays_in_bounds (msgs : List Msg)
    (hmsgs : ∀ msg ∈ msgs, speedEvent msg) :
    100 ≤ (runMsgs initialModel msgs).frameRate ∧
    (runMsgs initialModel msgs).frameRate ≤ 2000 := by
  have h := speed_invariant msgs initialModel hmsgs (by decide)
  exact ⟨h.1, h.2.1⟩

/-- Witness for `frameRate_stays_in_bounds`: two speed-ups and a
slow-down. -/
theorem frameRate_stays_in_bounds_witness :
    100 ≤ (runMsgs initialModel [.key "+", .key "+", .key "-"]).frameRate ∧
    (runMsgs initialModel [.key "+", .key "+", .key "-"]).frameRate ≤ 2000 :=
  frameRate_stays_in_bounds [.key "+", .key "+", .key "-"]
    (by
      intro msg hm
      fin_cases hm
      · exact Or.inl rfl
      · exact Or.inl rfl
      · exact Or.inr (Or.inr (Or.inl rfl)))

/-! ## Claim C9 — most-severe alert selection -/

/-- `severityRank` is never negative (unlisted severities rank 0). -/
theorem severityRank_nonneg (s : String) : 0 ≤ severityRank s := by
  unfold severityRank
  split_ifs <;> omega

/-- Specification of the strict-improvement argmax loop of
`GetAlertDisplay`: from accumulator `(r, a)`, the fold either never
improves (every rank is at most `r` and the accumulator survives), or
returns the first element of maximal rank among those exceeding `r`. -/
theorem alertLoop_spec (l : List Alert) :
    ∀ (r : Int) (a : Alert),
      (l.foldl
          (fun (acc : Int × Alert) alert =>
            if severityRank alert.Severity > acc.1 then (severityRank alert.Severity, alert)
            else acc) (r, a) = (r, a) ∧
        ∀ x ∈ l, severityRank x.Severity ≤ r) ∨
      (∃ pre post,
        l = pre ++ (l.foldl
          (fun (acc : Int × Alert) alert =>
            if severityRank alert.Severity > acc.1 then (severityRank alert.Severity, alert)
            else acc) (r, a)).2 :: post ∧
        severityRank ((l.foldl
          (fun (acc : Int × Alert) alert =>
            if severityRank alert.Severity > acc.1 then (severityRank alert.Severity, alert)
            else acc) (r, a)).2).Severity =
          (l.foldl
          (fun (acc : Int × Alert) alert =>
            if severityRank alert.Severity > acc.1 then (severityRank alert.Severity, alert)
            else acc) (r, a)).1 ∧
        r < (l.foldl
          (fun (acc : Int × Alert) alert =>
            if severityRank alert.Severity > acc.1 then (severityRank alert.Severity, alert)
            else acc) (r, a)).1 ∧
        (∀ x ∈ pre, severityRank x.Severity <
          (l.foldl
          (fun (acc : Int × Alert) alert =>
            if severityRank alert.Severity > acc.1 then (severityRank alert.Severity, alert)
            else acc) (r, a)).1) ∧
        (∀ x ∈ post, severityRank x.Severity ≤
          (l.foldl
          (fun (acc : Int × Alert) alert =>
            if severityRank alert.Severity > acc.1 then (severityRank alert.Severity, alert)
            else acc) (r, a)).1)) := by
  induction l with
  | nil => exact fun r a => Or.inl ⟨rfl, by simp⟩
  | cons x xs ih =>
    intro r a
    by_cases hx : severityRank x.Severity > r
    · have hstep : (x :: xs).foldl
          (fun (acc : Int × Alert) alert =>
            if severityRank alert.Severity > acc.1 then (severityRank alert.Severity, alert)
            else acc) (r, a) =
          xs.foldl
          (fun (acc : Int × Alert) alert =>
            if severityRank alert.Severity > acc.1 then (severityRank alert.Severity, alert)
            else acc) (severityRank x.Severity, x) := by
        simp [hx]
      rw [hstep]
      rcases ih (severityRank x.Severity) x with ⟨heq, hall⟩ | ⟨pre, post, hsplit, hrk, hlt, hpre, hpost⟩
      · refine Or.inr ⟨[], xs, ?_, ?_, ?_, by simp, ?_⟩
        · simp [heq]
        · simp [heq]
        · rw [heq]; exact hx
        · rw [heq]; intro y hy; exact hall y hy
      · refine Or.inr ⟨x :: pre, post, ?_, hrk, by omega, ?_, hpost⟩
        · rw [List.cons_append]
          rw [← hsplit]
        · intro y hy
          rcases List.mem_cons.mp hy with rfl | hy2
          · omega
          · exact hpre y hy2
    · have hstep : (x :: xs).foldl
          (fun (acc : Int × Alert) alert =>
            if severityRank alert.Severity > acc.1 then (severityRank alert.Severity, alert)
            else acc) (r, a) =
          xs.foldl
          (fun (acc : Int × Alert) alert =>
            if severityRank alert.Severity > acc.1 then (severityRank alert.Severity, alert)
            else acc) (r, a) := by
        simp [hx]
      rw [hstep]
      rcases ih r a with ⟨heq, hall⟩ | ⟨pre, post, hsplit, hrk, hlt, hpre, hpost⟩
      · refine Or.inl ⟨heq, ?_⟩
        intro y hy
        rcases List.mem_cons.mp hy with rfl | hy2
        · omega
        · exact hall y hy2
      · refine Or.inr ⟨x :: pre, post, ?_, hrk, hlt, ?_, hpost⟩
        · rw [List.cons_append]
          rw [← hsplit]
        · intro y hy
          rcases List.mem_cons.mp hy with rfl | hy2
          · omega
          · exact hpre y hy2

/-- C9: for every non-empty alert list, the alert `GetAlertDisplay` selects
for display splits the list as `pre ++ [chosen] ++ post` where every
earlier alert has strictly smaller rank (first-seen wins ties) and every
alert in the list has rank at most the chosen one's: the chosen alert is
maximal under Extreme > Severe > Moderate > Minor > Unknown. -/
theorem mostSevereAlert_maximal (alerts : List Alert) (h : alerts ≠ []) :
    ∃ pre post, alerts = pre ++ mostSevereAlert alerts :: post ∧
      (∀ x ∈ pre,
        severityRank x.Severity < severityRank (mostSevereAlert alerts).Severity) ∧
      (∀ x ∈ alerts,
        severityRank x.Severity ≤ severityRank (mostSevereAlert alerts).Severity) := by
  rcases alertLoop_spec alerts (-1) emptyAlert with ⟨heq, hall⟩ | ⟨pre, post, hsplit, hrk, hlt, hpre, hpost⟩
  · obtain ⟨x, hx⟩ := List.exists_mem_of_ne_nil alerts h
    have h1 := hall x hx
    have h2 := severityRank_nonneg x.Severity
    omega
  · refine ⟨pre, post, hsplit, ?_, ?_⟩
    · intro y hy
      have := hpre y hy
      rw [mostSevereAlert, hrk]
      exact this
    · intro y hy
      rw [mostSevereAlert, hrk]
      rw [hsplit] at hy
      rcases List.mem_append.mp hy with hy1 | hy2
      · have h1 := hpre y hy1
        omega
      · rcases List.mem_cons.mp hy2 with rfl | hy3
        · omega
        · exact hpost y hy3

/-- Witness for `mostSevereAlert_maximal`: given alerts with severities
Minor, Severe, Moderate in that order, the Severe alert (the tornado
warning) is the one displayed. -/
theorem mostSevereAlert_maximal_witness :
    mostSevereAlert mixedAlerts = ⟨"Tornado Warning", "Severe", "", "", "", 0⟩ ∧
    ∃ pre post, mixedAlerts = pre ++ mostSevereAlert mixedAlerts :: post ∧
      (∀ x ∈ pre,
        severityRank x.Severity < severityRank (mostSevereAlert mixedAlerts).Severity) ∧
      (∀ x ∈ mixedAlerts,
        severityRank x.Severity ≤ severityRank (mostSevereAlert mixedAlerts).Severity) :=
  ⟨by decide, mostSevereAlert_maximal mixedAlerts (by decide)⟩

/-! ## Claim C6 — the overlay rasterizer is deterministic -/

/-- C6: the geographic overlay rasterizer is a pure, deterministic function
of the geocode outcome for the center location, the cosine model, the input
grid and the center cell: two invocations with identical inputs produce
identical overlay grids.  In this embedding `DrawGeographicBoundaries` is a
function with no state beyond the grid it is given and returns, so the two
results are definitionally the same value. -/
theorem drawGeographicBoundaries_deterministic (cosDeg : ℚ → ℚ)
    (geocode : Option (ℚ × ℚ)) (d : DisplayGrid) (centerX centerY : Int) :
    DrawGeographicBoundaries cosDeg geocode d centerX centerY =
      DrawGeographicBoundaries cosDeg geocode d centerX centerY := rfl

end Termidar
